import Mathlib

/-!
Verification of the treadmill application core (src/src-tauri/src/main.rs):
the FTMS treadmill-data decoder, the control-command encoder, and the
workout compiler with its duration parser and pace converter.

Modelling conventions:
* Byte buffers are `List ℕ` whose elements are byte values; machine
  integers are `ℕ`/`ℤ` with explicit `% 2^w` where wrap-around matters
  (release-mode Rust semantics: unchecked arithmetic wraps).
* Rust indexing `data[i]` panics when out of bounds; this is modelled by
  the extra error value `DecodeError.indexOutOfBounds`, proven unreachable.
* Rust `f64`/`f32` arithmetic is modelled exactly over `ℚ` by `rnd 53` /
  `rnd 24`, IEEE-754 round-to-nearest-even at the given precision
  (exponents are unbounded: all values appearing here are far from the
  overflow and subnormal ranges of the two formats).
* Functions that can panic (`unwrap` on string parsing) return `Option`.
-/

set_option maxHeartbeats 1000000

namespace Treadmill

/-- Little-endian u16 from two bytes (`u16::from_le_bytes`). -/
def u16le (b0 b1 : ℕ) : ℕ := b0 + 256 * b1

/-- Three bytes read as the low 3 bytes of a little-endian u32 whose high
byte is zero (`u32::from_le_bytes([b0, b1, b2, 0])`). -/
def u24le (b0 b1 b2 : ℕ) : ℕ := b0 + 256 * b1 + 65536 * b2

/-- Little-endian i16 from two bytes (`i16::from_le_bytes`), two's
complement. -/
def i16le (b0 b1 : ℕ) : ℤ :=
  if (b0 + 256 * b1) % 65536 < 32768 then ((b0 + 256 * b1) % 65536 : ℤ)
  else ((b0 + 256 * b1) % 65536 : ℤ) - 65536

/-- struct TreadmillDataFlags (main.rs lines 22-37). -/
structure TreadmillDataFlags where
  more_data : Bool
  average_speed : Bool
  total_distance : Bool
  inclination_and_ramp_angle : Bool
  elevation_gain : Bool
  instantaneous_pace : Bool
  average_pace : Bool
  energy : Bool
  heart_rate : Bool
  metabolic_equivalent : Bool
  elapsed_time : Bool
  remaining_time : Bool
  force_on_belt_and_power_output : Bool

/-- struct TreadmillData (main.rs lines 39-59). -/
structure TreadmillData where
  speed : ℕ
  average_speed : Option ℕ
  total_distance : Option ℕ
  inclination : Option ℤ
  ramp_angle : Option ℤ
  positive_elevation : Option ℕ
  negative_elevation : Option ℕ
  instantaneous_pace : Option ℕ
  average_pace : Option ℕ
  total_energy : Option ℕ
  energy_per_hour : Option ℕ
  energy_per_minute : Option ℕ
  heart_rate : Option ℕ
  metabolic_equivalent : Option ℕ
  elapsed_time : Option ℕ
  remaining_time : Option ℕ
  force_on_belt : Option ℤ
  power_output : Option ℤ

/-- enum DecodeError (main.rs lines 61-63). `indexOutOfBounds` is not a
constructor of the Rust enum: it models the panic of an out-of-bounds
`data[i]`, and is proven unreachable. -/
inductive DecodeError where
  | notEnoughData
  | indexOutOfBounds

/-- Flag extraction from the two flag bytes (main.rs lines 83-97). -/
def decodeFlags (b0 b1 : ℕ) : TreadmillDataFlags where
  more_data := b0 &&& 0b00000001 != 0
  average_speed := b0 &&& 0b00000010 != 0
  total_distance := b0 &&& 0b00000100 != 0
  inclination_and_ramp_angle := b0 &&& 0b00001000 != 0
  elevation_gain := b0 &&& 0b00010000 != 0
  instantaneous_pace := b0 &&& 0b00100000 != 0
  average_pace := b0 &&& 0b01000000 != 0
  energy := b0 &&& 0b10000000 != 0
  heart_rate := b1 &&& 0b00000001 != 0
  metabolic_equivalent := b1 &&& 0b00000010 != 0
  elapsed_time := b1 &&& 0b00000100 != 0
  remaining_time := b1 &&& 0b00001000 != 0
  force_on_belt_and_power_output := b1 &&& 0b00010000 != 0

/-- Last group of `decode_treadmill_data` (main.rs lines 209-239):
force_on_belt and power_output, then construction of the frame. As in the
source, the cursor is not advanced after this final group. -/
def decodeFromForceOnBelt (data : List ℕ) (flags : TreadmillDataFlags)
    (cursor : ℕ) (speed : ℕ) (average_speed : Option ℕ)
    (total_distance : Option ℕ) (inclination ramp_angle : Option ℤ)
    (positive_elevation negative_elevation : Option ℕ)
    (instantaneous_pace average_pace : Option ℕ)
    (total_energy energy_per_hour energy_per_minute : Option ℕ)
    (heart_rate metabolic_equivalent : Option ℕ)
    (elapsed_time remaining_time : Option ℕ) :
    Except DecodeError TreadmillData :=
  if flags.force_on_belt_and_power_output then
    if data.length < cursor + 4 then .error .notEnoughData
    else
      match data[cursor]?, data[cursor + 1]?, data[cursor + 2]?, data[cursor + 3]? with
      | some b0, some b1, some b2, some b3 =>
        .ok ⟨speed, average_speed, total_distance, inclination, ramp_angle,
          positive_elevation, negative_elevation, instantaneous_pace,
          average_pace, total_energy, energy_per_hour, energy_per_minute,
          heart_rate, metabolic_equivalent, elapsed_time, remaining_time,
          some (i16le b0 b1), some (i16le b2 b3)⟩
      | _, _, _, _ => .error .indexOutOfBounds
  else
    .ok ⟨speed, average_speed, total_distance, inclination, ramp_angle,
      positive_elevation, negative_elevation, instantaneous_pace,
      average_pace, total_energy, energy_per_hour, energy_per_minute,
      heart_rate, metabolic_equivalent, elapsed_time, remaining_time,
      none, none⟩

/-- remaining_time group (main.rs lines 200-207). -/
def decodeFromRemainingTime (data : List ℕ) (flags : TreadmillDataFlags)
    (cursor : ℕ) (speed : ℕ) (average_speed : Option ℕ)
    (total_distance : Option ℕ) (inclination ramp_angle : Option ℤ)
    (positive_elevation negative_elevation : Option ℕ)
    (instantaneous_pace average_pace : Option ℕ)
    (total_energy energy_per_hour energy_per_minute : Option ℕ)
    (heart_rate metabolic_equivalent : Option ℕ)
    (elapsed_time : Option ℕ) :
    Except DecodeError TreadmillData :=
  if flags.remaining_time then
    if data.length < cursor + 2 then .error .notEnoughData
    else
      match data[cursor]?, data[cursor + 1]? with
      | some b0, some b1 =>
        decodeFromForceOnBelt data flags (cursor + 2) speed average_speed
          total_distance inclination ramp_angle positive_elevation
          negative_elevation instantaneous_pace average_pace total_energy
          energy_per_hour energy_per_minute heart_rate metabolic_equivalent
          elapsed_time (some (u16le b0 b1))
      | _, _ => .error .indexOutOfBounds
  else
    decodeFromForceOnBelt data flags cursor speed average_speed
      total_distance inclination ramp_angle positive_elevation
      negative_elevation instantaneous_pace average_pace total_energy
      energy_per_hour energy_per_minute heart_rate metabolic_equivalent
      elapsed_time none

/-- elapsed_time group (main.rs lines 191-198). -/
def decodeFromElapsedTime (data : List ℕ) (flags : TreadmillDataFlags)
    (cursor : ℕ) (speed : ℕ) (average_speed : Option ℕ)
    (total_distance : Option ℕ) (inclination ramp_angle : Option ℤ)
    (positive_elevation negative_elevation : Option ℕ)
    (instantaneous_pace average_pace : Option ℕ)
    (total_energy energy_per_hour energy_per_minute : Option ℕ)
    (heart_rate metabolic_equivalent : Option ℕ) :
    Except DecodeError TreadmillData :=
  if flags.elapsed_time then
    if data.length < cursor + 2 then .error .notEnoughData
    else
      match data[cursor]?, data[cursor + 1]? with
      | some b0, some b1 =>
        decodeFromRemainingTime data flags (cursor + 2) speed average_speed
          total_distance inclination ramp_angle positive_elevation
          negative_elevation instantaneous_pace average_pace total_energy
          energy_per_hour energy_per_minute heart_rate metabolic_equivalent
          (some (u16le b0 b1))
      | _, _ => .error .indexOutOfBounds
  else
    decodeFromRemainingTime data flags cursor speed average_speed
      total_distance inclination ramp_angle positive_elevation
      negative_elevation instantaneous_pace average_pace total_energy
      energy_per_hour energy_per_minute heart_rate metabolic_equivalent
      none

/-- metabolic_equivalent group (main.rs lines 182-189). -/
def decodeFromMetabolicEquivalent (data : List ℕ) (flags : TreadmillDataFlags)
    (cursor : ℕ) (speed : ℕ) (average_speed : Option ℕ)
    (total_distance : Option ℕ) (inclination ramp_angle : Option ℤ)
    (positive_elevation negative_elevation : Option ℕ)
    (instantaneous_pace average_pace : Option ℕ)
    (total_energy energy_per_hour energy_per_minute : Option ℕ)
    (heart_rate : Option ℕ) :
    Except DecodeError TreadmillData :=
  if flags.metabolic_equivalent then
    if data.length < cursor + 1 then .error .notEnoughData
    else
      match data[cursor]? with
      | some b0 =>
        decodeFromElapsedTime data flags (cursor + 1) speed average_speed
          total_distance inclination ramp_angle positive_elevation
          negative_elevation instantaneous_pace average_pace total_energy
          energy_per_hour energy_per_minute heart_rate (some b0)
      | none => .error .indexOutOfBounds
  else
    decodeFromElapsedTime data flags cursor speed average_speed
      total_distance inclination ramp_angle positive_elevation
      negative_elevation instantaneous_pace average_pace total_energy
      energy_per_hour energy_per_minute heart_rate none

/-- heart_rate group (main.rs lines 173-180). -/
def decodeFromHeartRate (data : List ℕ) (flags : TreadmillDataFlags)
    (cursor : ℕ) (speed : ℕ) (average_speed : Option ℕ)
    (total_distance : Option ℕ) (inclination ramp_angle : Option ℤ)
    (positive_elevation negative_elevation : Option ℕ)
    (instantaneous_pace average_pace : Option ℕ)
    (total_energy energy_per_hour energy_per_minute : Option ℕ) :
    Except DecodeError TreadmillData :=
  if flags.heart_rate then
    if data.length < cursor + 1 then .error .notEnoughData
    else
      match data[cursor]? with
      | some b0 =>
        decodeFromMetabolicEquivalent data flags (cursor + 1) speed
          average_speed total_distance inclination ramp_angle
          positive_elevation negative_elevation instantaneous_pace
          average_pace total_energy energy_per_hour energy_per_minute
          (some b0)
      | none => .error .indexOutOfBounds
  else
    decodeFromMetabolicEquivalent data flags cursor speed average_speed
      total_distance inclination ramp_angle positive_elevation
      negative_elevation instantaneous_pace average_pace total_energy
      energy_per_hour energy_per_minute none

/-- energy group: total_energy, energy_per_hour, energy_per_minute
(main.rs lines 160-171). -/
def decodeFromEnergy (data : List ℕ) (flags : TreadmillDataFlags)
    (cursor : ℕ) (speed : ℕ) (average_speed : Option ℕ)
    (total_distance : Option ℕ) (inclination ramp_angle : Option ℤ)
    (positive_elevation negative_elevation : Option ℕ)
    (instantaneous_pace average_pace : Option ℕ) :
    Except DecodeError TreadmillData :=
  if flags.energy then
    if data.length < cursor + 5 then .error .notEnoughData
    else
      match data[cursor]?, data[cursor + 1]?, data[cursor + 2]?,
          data[cursor + 3]?, data[cursor + 4]? with
      | some b0, some b1, some b2, some b3, some b4 =>
        decodeFromHeartRate data flags (cursor + 5) speed average_speed
          total_distance inclination ramp_angle positive_elevation
          negative_elevation instantaneous_pace average_pace
          (some (u16le b0 b1)) (some (u16le b2 b3)) (some b4)
      | _, _, _, _, _ => .error .indexOutOfBounds
  else
    decodeFromHeartRate data flags cursor speed average_speed
      total_distance inclination ramp_angle positive_elevation
      negative_elevation instantaneous_pace average_pace none none none

/-- average_pace group (main.rs lines 151-158). -/
def decodeFromAveragePace (data : List ℕ) (flags : TreadmillDataFlags)
    (cursor : ℕ) (speed : ℕ) (average_speed : Option ℕ)
    (total_distance : Option ℕ) (inclination ramp_angle : Option ℤ)
    (positive_elevation negative_elevation : Option ℕ)
    (instantaneous_pace : Option ℕ) :
    Except DecodeError TreadmillData :=
  if flags.average_pace then
    if data.length < cursor + 2 then .error .notEnoughData
    else
      match data[cursor]?, data[cursor + 1]? with
      | some b0, some b1 =>
        decodeFromEnergy data flags (cursor + 2) speed average_speed
          total_distance inclination ramp_angle positive_elevation
          negative_elevation instantaneous_pace (some (u16le b0 b1))
      | _, _ => .error .indexOutOfBounds
  else
    decodeFromEnergy data flags cursor speed average_speed total_distance
      inclination ramp_angle positive_elevation negative_elevation
      instantaneous_pace none

/-- instantaneous_pace group (main.rs lines 142-149). -/
def decodeFromInstantaneousPace (data : List ℕ) (flags : TreadmillDataFlags)
    (cursor : ℕ) (speed : ℕ) (average_speed : Option ℕ)
    (total_distance : Option ℕ) (inclination ramp_angle : Option ℤ)
    (positive_elevation negative_elevation : Option ℕ) :
    Except DecodeError TreadmillData :=
  if flags.instantaneous_pace then
    if data.length < cursor + 2 then .error .notEnoughData
    else
      match data[cursor]?, data[cursor + 1]? with
      | some b0, some b1 =>
        decodeFromAveragePace data flags (cursor + 2) speed average_speed
          total_distance inclination ramp_angle positive_elevation
          negative_elevation (some (u16le b0 b1))
      | _, _ => .error .indexOutOfBounds
  else
    decodeFromAveragePace data flags cursor speed average_speed
      total_distance inclination ramp_angle positive_elevation
      negative_elevation none

/-- elevation_gain group: positive_elevation, negative_elevation
(main.rs lines 131-140). -/
def decodeFromElevationGain (data : List ℕ) (flags : TreadmillDataFlags)
    (cursor : ℕ) (speed : ℕ) (average_speed : Option ℕ)
    (total_distance : Option ℕ) (inclination ramp_angle : Option ℤ) :
    Except DecodeError TreadmillData :=
  if flags.elevation_gain then
    if data.length < cursor + 4 then .error .notEnoughData
    else
      match data[cursor]?, data[cursor + 1]?, data[cursor + 2]?, data[cursor + 3]? with
      | some b0, some b1, some b2, some b3 =>
        decodeFromInstantaneousPace data flags (cursor + 4) speed
          average_speed total_distance inclination ramp_angle
          (some (u16le b0 b1)) (some (u16le b2 b3))
      | _, _, _, _ => .error .indexOutOfBounds
  else
    decodeFromInstantaneousPace data flags cursor speed average_speed
      total_distance inclination ramp_angle none none

/-- inclination_and_ramp_angle group (main.rs lines 120-129). -/
def decodeFromInclination (data : List ℕ) (flags : TreadmillDataFlags)
    (cursor : ℕ) (speed : ℕ) (average_speed : Option ℕ)
    (total_distance : Option ℕ) :
    Except DecodeError TreadmillData :=
  if flags.inclination_and_ramp_angle then
    if data.length < cursor + 4 then .error .notEnoughData
    else
      match data[cursor]?, data[cursor + 1]?, data[cursor + 2]?, data[cursor + 3]? with
      | some b0, some b1, some b2, some b3 =>
        decodeFromElevationGain data flags (cursor + 4) speed average_speed
          total_distance (some (i16le b0 b1)) (some (i16le b2 b3))
      | _, _, _, _ => .error .indexOutOfBounds
  else
    decodeFromElevationGain data flags cursor speed average_speed
      total_distance none none

/-- total_distance group (main.rs lines 110-118). -/
def decodeFromTotalDistance (data : List ℕ) (flags : TreadmillDataFlags)
    (cursor : ℕ) (speed : ℕ) (average_speed : Option ℕ) :
    Except DecodeError TreadmillData :=
  if flags.total_distance then
    if data.length < cursor + 3 then .error .notEnoughData
    else
      match data[cursor]?, data[cursor + 1]?, data[cursor + 2]? with
      | some b0, some b1, some b2 =>
        decodeFromInclination data flags (cursor + 3) speed average_speed
          (some (u24le b0 b1 b2))
      | _, _, _ => .error .indexOutOfBounds
  else
    decodeFromInclination data flags cursor speed average_speed none

/-- average_speed group (main.rs lines 101-108). -/
def decodeFromAverageSpeed (data : List ℕ) (flags : TreadmillDataFlags)
    (cursor : ℕ) (speed : ℕ) :
    Except DecodeError TreadmillData :=
  if flags.average_speed then
    if data.length < cursor + 2 then .error .notEnoughData
    else
      match data[cursor]?, data[cursor + 1]? with
      | some b0, some b1 =>
        decodeFromTotalDistance data flags (cursor + 2) speed
          (some (u16le b0 b1))
      | _, _ => .error .indexOutOfBounds
  else
    decodeFromTotalDistance data flags cursor speed none

/-- fn decode_treadmill_data (main.rs lines 78-239). Fails with
`NotEnoughData` when fewer than 4 bytes, otherwise reads the two flag
bytes, the mandatory little-endian u16 speed at offset 2, and walks the
flag-gated optional groups in their fixed order with the cursor starting
at 4. -/
def decode_treadmill_data (data : List ℕ) : Except DecodeError TreadmillData :=
  if data.length < 4 then .error .notEnoughData
  else
    match data[0]?, data[1]?, data[2]?, data[3]? with
    | some b0, some b1, some b2, some b3 =>
      decodeFromAverageSpeed data (decodeFlags b0 b1) 4 (u16le b2 b3)
    | _, _, _, _ => .error .indexOutOfBounds

/-- Byte count a group contributes when its flag is set. -/
def sizeIf (b : Bool) (n : ℕ) : ℕ := if b then n else 0

/-- Bytes required by the groups from the force_on_belt_and_power_output group onward. -/
def restForceOnBelt (fl : TreadmillDataFlags) : ℕ := sizeIf fl.force_on_belt_and_power_output 4

/-- Bytes required by the groups from the remaining_time group onward. -/
def restRemainingTime (fl : TreadmillDataFlags) : ℕ := sizeIf fl.remaining_time 2 + restForceOnBelt fl

/-- Bytes required by the groups from the elapsed_time group onward. -/
def restElapsedTime (fl : TreadmillDataFlags) : ℕ := sizeIf fl.elapsed_time 2 + restRemainingTime fl

/-- Bytes required by the groups from the metabolic_equivalent group onward. -/
def restMetabolicEquivalent (fl : TreadmillDataFlags) : ℕ := sizeIf fl.metabolic_equivalent 1 + restElapsedTime fl

/-- Bytes required by the groups from the heart_rate group onward. -/
def restHeartRate (fl : TreadmillDataFlags) : ℕ := sizeIf fl.heart_rate 1 + restMetabolicEquivalent fl

/-- Bytes required by the groups from the energy group onward. -/
def restEnergy (fl : TreadmillDataFlags) : ℕ := sizeIf fl.energy 5 + restHeartRate fl

/-- Bytes required by the groups from the average_pace group onward. -/
def restAveragePace (fl : TreadmillDataFlags) : ℕ := sizeIf fl.average_pace 2 + restEnergy fl

/-- Bytes required by the groups from the instantaneous_pace group onward. -/
def restInstantaneousPace (fl : TreadmillDataFlags) : ℕ := sizeIf fl.instantaneous_pace 2 + restAveragePace fl

/-- Bytes required by the groups from the elevation_gain group onward. -/
def restElevationGain (fl : TreadmillDataFlags) : ℕ := sizeIf fl.elevation_gain 4 + restInstantaneousPace fl

/-- Bytes required by the groups from the inclination_and_ramp_angle group onward. -/
def restInclination (fl : TreadmillDataFlags) : ℕ := sizeIf fl.inclination_and_ramp_angle 4 + restElevationGain fl

/-- Bytes required by the groups from the total_distance group onward. -/
def restTotalDistance (fl : TreadmillDataFlags) : ℕ := sizeIf fl.total_distance 3 + restInclination fl

/-- Bytes required by the groups from the average_speed group onward. -/
def restAverageSpeed (fl : TreadmillDataFlags) : ℕ := sizeIf fl.average_speed 2 + restTotalDistance fl

/-- Agreement of two flag records on every field that gates a group or
appears in the output; more_data is deliberately excluded. -/
structure FlagsAgree (f g : TreadmillDataFlags) : Prop where
  average_speed : f.average_speed = g.average_speed
  total_distance : f.total_distance = g.total_distance
  inclination_and_ramp_angle : f.inclination_and_ramp_angle = g.inclination_and_ramp_angle
  elevation_gain : f.elevation_gain = g.elevation_gain
  instantaneous_pace : f.instantaneous_pace = g.instantaneous_pace
  average_pace : f.average_pace = g.average_pace
  energy : f.energy = g.energy
  heart_rate : f.heart_rate = g.heart_rate
  metabolic_equivalent : f.metabolic_equivalent = g.metabolic_equivalent
  elapsed_time : f.elapsed_time = g.elapsed_time
  remaining_time : f.remaining_time = g.remaining_time
  force_on_belt_and_power_output : f.force_on_belt_and_power_output = g.force_on_belt_and_power_output

/-- The flag/size table of the optional groups, in the fixed walk order of
`decode_treadmill_data`. -/
def groupSizes (fl : TreadmillDataFlags) : List (Bool × ℕ) :=
  [(fl.average_speed, 2), (fl.total_distance, 3),
   (fl.inclination_and_ramp_angle, 4), (fl.elevation_gain, 4),
   (fl.instantaneous_pace, 2), (fl.average_pace, 2), (fl.energy, 5),
   (fl.heart_rate, 1), (fl.metabolic_equivalent, 1), (fl.elapsed_time, 2),
   (fl.remaining_time, 2), (fl.force_on_belt_and_power_output, 4)]

/-- Walks the flagged groups in order from `cursor`: `true` iff some set
flag's declared byte count exceeds the bytes remaining at the cursor. -/
def walkFails (len : ℕ) : ℕ → List (Bool × ℕ) → Bool
  | _, [] => false
  | cursor, (f, s) :: rest =>
    if f then (if len < cursor + s then true else walkFails len (cursor + s) rest)
    else walkFails len cursor rest

/-- Total bytes required by a flag/size table. -/
def sumSizes (gs : List (Bool × ℕ)) : ℕ := (gs.map fun p => sizeIf p.1 p.2).sum

/-- The flags record as read from the first two bytes of a buffer. -/
def flagsOf (data : List ℕ) : TreadmillDataFlags :=
  decodeFlags (data.getD 0 0) (data.getD 1 0)

/-- Offset at which the total_distance group is read: 4, plus 2 when the
average_speed group precedes it. -/
def tdOffset (data : List ℕ) : ℕ :=
  4 + sizeIf (data.getD 0 0 &&& 0b00000010 != 0) 2

/-- Presence bits of the 17 optional fields of a frame, in declaration
order. -/
def fieldPresence (fr : TreadmillData) : List Bool :=
  [fr.average_speed.isSome, fr.total_distance.isSome, fr.inclination.isSome,
   fr.ramp_angle.isSome, fr.positive_elevation.isSome,
   fr.negative_elevation.isSome, fr.instantaneous_pace.isSome,
   fr.average_pace.isSome, fr.total_energy.isSome, fr.energy_per_hour.isSome,
   fr.energy_per_minute.isSome, fr.heart_rate.isSome,
   fr.metabolic_equivalent.isSome, fr.elapsed_time.isSome,
   fr.remaining_time.isSome, fr.force_on_belt.isSome, fr.power_output.isSome]

/-- The governing flag of each of the 17 optional fields, in the same
order as `fieldPresence`. -/
def flagPresence (fl : TreadmillDataFlags) : List Bool :=
  [fl.average_speed, fl.total_distance, fl.inclination_and_ramp_angle,
   fl.inclination_and_ramp_angle, fl.elevation_gain, fl.elevation_gain,
   fl.instantaneous_pace, fl.average_pace, fl.energy, fl.energy, fl.energy,
   fl.heart_rate, fl.metabolic_equivalent, fl.elapsed_time,
   fl.remaining_time, fl.force_on_belt_and_power_output,
   fl.force_on_belt_and_power_output]

/-- enum TreadmillCommands (main.rs lines 65-75). -/
inductive TreadmillCommands where
  | requestControl
  | reset
  | setTargetSpeed (speed : ℕ)
  | setTargetInclination (inclination : ℤ)
  | startOrResume
  | stopOrPause
  | setTargetedDistance (distance : ℕ)
  | setTargetedTrainingTime (time : ℕ)

/-- Two's-complement byte `j` of an i16 value (`i16::to_le_bytes`). -/
def i16byte (v : ℤ) (j : ℕ) : ℕ := ((v % 65536).toNat / 256 ^ j) % 256

/-- fn treadmill_command_to_message (main.rs lines 241-252). `u16` and
`u24` payload bytes are little-endian; `SetTargetedDistance` emits only
the low 3 bytes of its 32-bit argument. -/
def treadmill_command_to_message (command : TreadmillCommands) : List ℕ :=
  match command with
  | .requestControl => [0x00]
  | .reset => [0x01]
  | .setTargetSpeed speed => [0x02, speed % 256, speed / 256 % 256]
  | .setTargetInclination inclination =>
      [0x03, i16byte inclination 0, i16byte inclination 1]
  | .startOrResume => [0x07]
  | .stopOrPause => [0x08]
  | .setTargetedDistance distance =>
      [0x0C, distance % 256, distance / 256 % 256, distance / 65536 % 256]
  | .setTargetedTrainingTime time => [0x0D, time % 256, time / 256 % 256]

/-- Binary digit count helper; the first argument is fuel so the
definition is structurally recursive. -/
def nbitsAux : ℕ → ℕ → ℕ
  | 0, _ => 0
  | fuel + 1, n => if n = 0 then 0 else nbitsAux fuel (n / 2) + 1

/-- Number of binary digits of `n` (0 for 0). -/
def nbits (n : ℕ) : ℕ := nbitsAux n n

/-- Binary exponent of a nonzero rational: the unique `e` with
`2 ^ e ≤ |q| < 2 ^ (e + 1)`. -/
def qexp (q : ℚ) : ℤ :=
  if (2 : ℚ) ^ ((nbits q.num.natAbs : ℤ) - nbits q.den) ≤ |q| then
    (nbits q.num.natAbs : ℤ) - nbits q.den
  else (nbits q.num.natAbs : ℤ) - nbits q.den - 1

/-- Round to the nearest integer, ties to even. -/
def rne (r : ℚ) : ℤ :=
  if r - ⌊r⌋ < 1 / 2 then ⌊r⌋
  else if 1 / 2 < r - ⌊r⌋ then ⌊r⌋ + 1
  else if ⌊r⌋ % 2 = 0 then ⌊r⌋ else ⌊r⌋ + 1

/-- IEEE-754 round to nearest (ties to even) at `prec` significant bits,
with unbounded exponent; `rnd 53` is binary64 (`f64`) rounding and
`rnd 24` is binary32 (`f32`) rounding for the magnitudes arising here. -/
def rnd (prec : ℕ) (q : ℚ) : ℚ :=
  if q = 0 then 0
  else (rne (q / 2 ^ (qexp q - prec + 1)) : ℚ) * 2 ^ (qexp q - prec + 1)

/-- Saturating float-to-u16 cast (Rust `as u16` on a finite value). -/
def u16ofFloat (q : ℚ) : ℕ := if q < 0 then 0 else min ⌊q⌋.toNat 65535

/-- The binary64 value of the literal `1.60934` (main.rs line 335). -/
def mileRate : ℚ := rnd 53 1.60934

/-- The f64 conversion chain of parse_pace for the min/mi unit (main.rs
lines 334-338) as a function of the u16 seconds-per-mile value `s`: Rust
evaluates `1. / s * (60.0 * 60.0) * (1.60934 / 1.)` - `60.0 * 60.0` is the
exact f64 3600 and `1.60934 / 1.` is the exact `mileRate`, while the
division and the two multiplications each round once - then multiplies by
`100.` (one more rounding) and casts to u16. For `s = 0` the division
yields +infinity, which the cast saturates to 65535. -/
def paceFromSecondsPerMile (s : ℕ) : ℕ :=
  if s = 0 then 65535
  else
    u16ofFloat
      (rnd 53 (rnd 53 (rnd 53 (rnd 53 (1 / (s : ℚ)) * 3600) * mileRate) * 100))

/-- The distance computation of a Run leaf (main.rs line 366):
`(pace as f32 * duration as f32 / 1000.0) as u16`; both u16 inputs are
below 2^24 and convert to f32 exactly, the product and the quotient each
round once. -/
def runDistance (pace duration : ℕ) : ℕ :=
  u16ofFloat (rnd 24 (rnd 24 ((pace : ℚ) * duration) / 1000))

/-- Rust `str::split(':')` on a character list: the pieces between
colons, empty pieces kept. -/
def splitOnColon : List Char → List (List Char)
  | [] => [[]]
  | c :: rest =>
    if c = ':' then [] :: splitOnColon rest
    else
      match splitOnColon rest with
      | [] => [[c]]
      | p :: ps => (c :: p) :: ps

/-- Rust `str::parse::<u16>()` on a character list: digits only, value
below 2^16; `none` models `Err` (whose `unwrap` panics). Rust also
accepts a leading `+`, which no caller produces. -/
def parseU16 (s : List Char) : Option ℕ :=
  if s ≠ [] ∧ s.all Char.isDigit then
    if s.foldl (fun a c => 10 * a + (c.toNat - 48)) 0 < 65536 then
      some (s.foldl (fun a c => 10 * a + (c.toNat - 48)) 0)
    else none
  else none

/-- enum PaceRaw (main.rs lines 272-283). -/
inductive PaceRaw where
  | mph (value : List Char)
  | kph (value : List Char)
  | minPerMi (value : List Char)
  | minPerKm (value : List Char)

/-- fn parse_pace (main.rs lines 328-344): only the min/mi unit is
implemented; every other unit returns 0. The value is split on ':', the
first two parts (default "0") are parsed as u16 (a parse failure panics:
`none`), seconds per mile is the wrapping u16 `minutes * 60 + seconds`,
and the f64 chain converts it to hundredths of km/h. -/
def parse_pace (pace : PaceRaw) : Option ℕ :=
  match pace with
  | .minPerMi value =>
    match parseU16 ((splitOnColon value).getD 0 ['0']),
        parseU16 ((splitOnColon value).getD 1 ['0']) with
    | some minutes, some seconds =>
      some (paceFromSecondsPerMile ((minutes * 60 + seconds) % 65536))
    | _, _ => none
  | _ => some 0

/-- fn parse_duration (main.rs lines 346-351): "MM:SS" to wrapping u16
seconds, with the same splitting, defaulting and panic behaviour as the
pace parser. -/
def parse_duration (duration : List Char) : Option ℕ :=
  match parseU16 ((splitOnColon duration).getD 0 ['0']),
      parseU16 ((splitOnColon duration).getD 1 ['0']) with
  | some minutes, some seconds => some ((minutes * 60 + seconds) % 65536)
  | _, _ => none

/-- enum WorkoutStepRaw (main.rs lines 285-300); `times` is a u8. -/
inductive WorkoutStepRaw where
  | «repeat» (times : ℕ) (steps : List WorkoutStepRaw)
  | run (name : List Char) (duration : List Char) (pace : PaceRaw) (angle : ℤ)

/-- struct WorkoutRaw (main.rs lines 302-307). -/
structure WorkoutRaw where
  name : List Char
  description : List Char
  steps : List WorkoutStepRaw

/-- struct WorkoutStep (main.rs lines 309-317); pace is km/h at 0.01
precision. -/
structure WorkoutStep where
  name : List Char
  duration : ℕ
  distance : ℕ
  pace : ℕ
  angle : ℤ

/-- struct Workout (main.rs lines 319-326). -/
structure Workout where
  duration : ℕ
  distance : ℕ
  steps : List WorkoutStep
  name : List Char
  description : List Char

mutual

/-- fn parse_workout_step (main.rs lines 353-376): a Repeat expands its
children once and concatenates `times` copies of the flattened result; a
Run resolves pace, duration and the derived distance. `none` models the
panics of the underlying parsers. -/
def parse_workout_step : WorkoutStepRaw → Option (List WorkoutStep)
  | .«repeat» times steps =>
    match parse_workout_steps steps with
    | some flat => some (List.flatten (List.replicate times flat))
    | none => none
  | .run name duration pace angle =>
    match parse_pace pace, parse_duration duration with
    | some p, some d => some [⟨name, d, runDistance p d, p, angle⟩]
    | _, _ => none

/-- The `flat_map(parse_workout_step)` used on child lists (main.rs lines
356 and 379). -/
def parse_workout_steps : List WorkoutStepRaw → Option (List WorkoutStep)
  | [] => some []
  | s :: rest =>
    match parse_workout_step s, parse_workout_steps rest with
    | some a, some b => some (a ++ b)
    | _, _ => none

end

/-- fn parse_workout (main.rs lines 378-394): flat-maps the top-level
steps, then folds aggregate distance and duration over the expanded steps
with wrapping u16 additions. -/
def parse_workout (workout : WorkoutRaw) : Option Workout :=
  match parse_workout_steps workout.steps with
  | none => none
  | some steps =>
    some ⟨steps.foldl (fun a st => (a + st.duration) % 65536) 0,
      steps.foldl (fun a st => (a + st.distance) % 65536) 0,
      steps, workout.name, workout.description⟩

theorem decodeFromForceOnBelt_spec (data : List ℕ) (flags : TreadmillDataFlags)
    (cursor speed : ℕ) (average_speed : Option ℕ) (total_distance : Option ℕ) (inclination : Option ℤ) (ramp_angle : Option ℤ) (positive_elevation : Option ℕ) (negative_elevation : Option ℕ) (instantaneous_pace : Option ℕ) (average_pace : Option ℕ) (total_energy : Option ℕ) (energy_per_hour : Option ℕ) (energy_per_minute : Option ℕ) (heart_rate : Option ℕ) (metabolic_equivalent : Option ℕ) (elapsed_time : Option ℕ) (remaining_time : Option ℕ)
    (hc : cursor ≤ data.length) :
    (data.length < cursor + restForceOnBelt flags →
      decodeFromForceOnBelt data flags cursor speed average_speed total_distance inclination ramp_angle positive_elevation negative_elevation instantaneous_pace average_pace total_energy energy_per_hour energy_per_minute heart_rate metabolic_equivalent elapsed_time remaining_time = .error .notEnoughData) ∧
    (cursor + restForceOnBelt flags ≤ data.length →
      ∃ fr, decodeFromForceOnBelt data flags cursor speed average_speed total_distance inclination ramp_angle positive_elevation negative_elevation instantaneous_pace average_pace total_energy energy_per_hour energy_per_minute heart_rate metabolic_equivalent elapsed_time remaining_time = .ok fr ∧
        fr.speed = speed ∧
        fr.average_speed = average_speed ∧
        fr.total_distance = total_distance ∧
        fr.inclination = inclination ∧
        fr.ramp_angle = ramp_angle ∧
        fr.positive_elevation = positive_elevation ∧
        fr.negative_elevation = negative_elevation ∧
        fr.instantaneous_pace = instantaneous_pace ∧
        fr.average_pace = average_pace ∧
        fr.total_energy = total_energy ∧
        fr.energy_per_hour = energy_per_hour ∧
        fr.energy_per_minute = energy_per_minute ∧
        fr.heart_rate = heart_rate ∧
        fr.metabolic_equivalent = metabolic_equivalent ∧
        fr.elapsed_time = elapsed_time ∧
        fr.remaining_time = remaining_time ∧
        fr.force_on_belt.isSome = flags.force_on_belt_and_power_output ∧
        fr.power_output.isSome = flags.force_on_belt_and_power_output) := by
  cases hf : flags.force_on_belt_and_power_output with
  | false =>
    refine ⟨fun h => absurd h (by simp [restForceOnBelt, sizeIf, hf]; omega), fun h => ?_⟩
    exact ⟨⟨speed, average_speed, total_distance, inclination, ramp_angle, positive_elevation, negative_elevation, instantaneous_pace, average_pace, total_energy, energy_per_hour, energy_per_minute, heart_rate, metabolic_equivalent, elapsed_time, remaining_time, none, none⟩, by simp [decodeFromForceOnBelt, hf], rfl, rfl, rfl, rfl, rfl, rfl, rfl, rfl, rfl, rfl, rfl, rfl, rfl, rfl, rfl, rfl, by simp [hf], by simp [hf]⟩
  | true =>
    constructor
    · intro h
      simp only [restForceOnBelt, sizeIf, hf, if_true] at h
      simp [decodeFromForceOnBelt, hf, h]
    · intro h
      simp only [restForceOnBelt, sizeIf, hf, if_true] at h
      have h0 : cursor < data.length := by omega
      have h1 : cursor + 1 < data.length := by omega
      have h2 : cursor + 2 < data.length := by omega
      have h3 : cursor + 3 < data.length := by omega
      have hg : ¬ data.length < cursor + 4 := by omega
      refine ⟨⟨speed, average_speed, total_distance, inclination, ramp_angle, positive_elevation, negative_elevation, instantaneous_pace, average_pace, total_energy, energy_per_hour, energy_per_minute, heart_rate, metabolic_equivalent, elapsed_time, remaining_time, some (i16le data[cursor] data[cursor + 1]), some (i16le data[cursor + 2] data[cursor + 3])⟩, ?_, rfl, rfl, rfl, rfl, rfl, rfl, rfl, rfl, rfl, rfl, rfl, rfl, rfl, rfl, rfl, rfl, by simp [hf], by simp [hf]⟩
      simp [decodeFromForceOnBelt, hf, hg, List.getElem?_eq_getElem h0, List.getElem?_eq_getElem h1, List.getElem?_eq_getElem h2, List.getElem?_eq_getElem h3]

theorem decodeFromRemainingTime_spec (data : List ℕ) (flags : TreadmillDataFlags)
    (cursor speed : ℕ) (average_speed : Option ℕ) (total_distance : Option ℕ) (inclination : Option ℤ) (ramp_angle : Option ℤ) (positive_elevation : Option ℕ) (negative_elevation : Option ℕ) (instantaneous_pace : Option ℕ) (average_pace : Option ℕ) (total_energy : Option ℕ) (energy_per_hour : Option ℕ) (energy_per_minute : Option ℕ) (heart_rate : Option ℕ) (metabolic_equivalent : Option ℕ) (elapsed_time : Option ℕ)
    (hc : cursor ≤ data.length) :
    (data.length < cursor + restRemainingTime flags →
      decodeFromRemainingTime data flags cursor speed average_speed total_distance inclination ramp_angle positive_elevation negative_elevation instantaneous_pace average_pace total_energy energy_per_hour energy_per_minute heart_rate metabolic_equivalent elapsed_time = .error .notEnoughData) ∧
    (cursor + restRemainingTime flags ≤ data.length →
      ∃ fr, decodeFromRemainingTime data flags cursor speed average_speed total_distance inclination ramp_angle positive_elevation negative_elevation instantaneous_pace average_pace total_energy energy_per_hour energy_per_minute heart_rate metabolic_equivalent elapsed_time = .ok fr ∧
        fr.speed = speed ∧
        fr.average_speed = average_speed ∧
        fr.total_distance = total_distance ∧
        fr.inclination = inclination ∧
        fr.ramp_angle = ramp_angle ∧
        fr.positive_elevation = positive_elevation ∧
        fr.negative_elevation = negative_elevation ∧
        fr.instantaneous_pace = instantaneous_pace ∧
        fr.average_pace = average_pace ∧
        fr.total_energy = total_energy ∧
        fr.energy_per_hour = energy_per_hour ∧
        fr.energy_per_minute = energy_per_minute ∧
        fr.heart_rate = heart_rate ∧
        fr.metabolic_equivalent = metabolic_equivalent ∧
        fr.elapsed_time = elapsed_time ∧
        fr.remaining_time.isSome = flags.remaining_time ∧
        fr.force_on_belt.isSome = flags.force_on_belt_and_power_output ∧
        fr.power_output.isSome = flags.force_on_belt_and_power_output) := by
  cases hf : flags.remaining_time with
  | false =>
    have hb := decodeFromForceOnBelt_spec data flags cursor speed average_speed total_distance inclination ramp_angle positive_elevation negative_elevation instantaneous_pace average_pace total_energy energy_per_hour energy_per_minute heart_rate metabolic_equivalent elapsed_time none hc
    constructor
    · intro h
      have := hb.1 (by simpa [restRemainingTime, sizeIf, hf] using h)
      simpa [decodeFromRemainingTime, hf] using this
    · intro h
      obtain ⟨fr, e, hsp, hp0, hp1, hp2, hp3, hp4, hp5, hp6, hp7, hp8, hp9, hp10, hp11, hp12, hp13, hq0, hr0, hr1⟩ := hb.2 (by simpa [restRemainingTime, sizeIf, hf] using h)
      refine ⟨fr, ?_, hsp, hp0, hp1, hp2, hp3, hp4, hp5, hp6, hp7, hp8, hp9, hp10, hp11, hp12, hp13, by simp [hq0, hf], hr0, hr1⟩
      simpa [decodeFromRemainingTime, hf] using e
  | true =>
    constructor
    · intro h
      simp only [restRemainingTime, sizeIf, hf, if_true] at h
      by_cases hg : data.length < cursor + 2
      · simp [decodeFromRemainingTime, hf, hg]
      · have hcg : ¬ data.length < cursor + 2 := hg
        have h0 : cursor < data.length := by omega
        have h1 : cursor + 1 < data.length := by omega
        have hb := decodeFromForceOnBelt_spec data flags (cursor + 2) speed average_speed total_distance inclination ramp_angle positive_elevation negative_elevation instantaneous_pace average_pace total_energy energy_per_hour energy_per_minute heart_rate metabolic_equivalent elapsed_time (some (u16le data[cursor] data[cursor + 1])) (by omega)
        simp [decodeFromRemainingTime, hf, hg, List.getElem?_eq_getElem h0, List.getElem?_eq_getElem h1]
        exact hb.1 (by omega)
    · intro h
      simp only [restRemainingTime, sizeIf, hf, if_true] at h
      have hg : ¬ data.length < cursor + 2 := by omega
      have h0 : cursor < data.length := by omega
      have h1 : cursor + 1 < data.length := by omega
      have hb := decodeFromForceOnBelt_spec data flags (cursor + 2) speed average_speed total_distance inclination ramp_angle positive_elevation negative_elevation instantaneous_pace average_pace total_energy energy_per_hour energy_per_minute heart_rate metabolic_equivalent elapsed_time (some (u16le data[cursor] data[cursor + 1])) (by omega)
      obtain ⟨fr, e, hsp, hp0, hp1, hp2, hp3, hp4, hp5, hp6, hp7, hp8, hp9, hp10, hp11, hp12, hp13, hq0, hr0, hr1⟩ := hb.2 (by omega)
      refine ⟨fr, ?_, hsp, hp0, hp1, hp2, hp3, hp4, hp5, hp6, hp7, hp8, hp9, hp10, hp11, hp12, hp13, by simp [hq0, hf], hr0, hr1⟩
      simp [decodeFromRemainingTime, hf, hg, List.getElem?_eq_getElem h0, List.getElem?_eq_getElem h1, e]

theorem decodeFromElapsedTime_spec (data : List ℕ) (flags : TreadmillDataFlags)
    (cursor speed : ℕ) (average_speed : Option ℕ) (total_distance : Option ℕ) (inclination : Option ℤ) (ramp_angle : Option ℤ) (positive_elevation : Option ℕ) (negative_elevation : Option ℕ) (instantaneous_pace : Option ℕ) (average_pace : Option ℕ) (total_energy : Option ℕ) (energy_per_hour : Option ℕ) (energy_per_minute : Option ℕ) (heart_rate : Option ℕ) (metabolic_equivalent : Option ℕ)
    (hc : cursor ≤ data.length) :
    (data.length < cursor + restElapsedTime flags →
      decodeFromElapsedTime data flags cursor speed average_speed total_distance inclination ramp_angle positive_elevation negative_elevation instantaneous_pace average_pace total_energy energy_per_hour energy_per_minute heart_rate metabolic_equivalent = .error .notEnoughData) ∧
    (cursor + restElapsedTime flags ≤ data.length →
      ∃ fr, decodeFromElapsedTime data flags cursor speed average_speed total_distance inclination ramp_angle positive_elevation negative_elevation instantaneous_pace average_pace total_energy energy_per_hour energy_per_minute heart_rate metabolic_equivalent = .ok fr ∧
        fr.speed = speed ∧
        fr.average_speed = average_speed ∧
        fr.total_distance = total_distance ∧
        fr.inclination = inclination ∧
        fr.ramp_angle = ramp_angle ∧
        fr.positive_elevation = positive_elevation ∧
        fr.negative_elevation = negative_elevation ∧
        fr.instantaneous_pace = instantaneous_pace ∧
        fr.average_pace = average_pace ∧
        fr.total_energy = total_energy ∧
        fr.energy_per_hour = energy_per_hour ∧
        fr.energy_per_minute = energy_per_minute ∧
        fr.heart_rate = heart_rate ∧
        fr.metabolic_equivalent = metabolic_equivalent ∧
        fr.elapsed_time.isSome = flags.elapsed_time ∧
        fr.remaining_time.isSome = flags.remaining_time ∧
        fr.force_on_belt.isSome = flags.force_on_belt_and_power_output ∧
        fr.power_output.isSome = flags.force_on_belt_and_power_output) := by
  cases hf : flags.elapsed_time with
  | false =>
    have hb := decodeFromRemainingTime_spec data flags cursor speed average_speed total_distance inclination ramp_angle positive_elevation negative_elevation instantaneous_pace average_pace total_energy energy_per_hour energy_per_minute heart_rate metabolic_equivalent none hc
    constructor
    · intro h
      have := hb.1 (by simpa [restElapsedTime, sizeIf, hf] using h)
      simpa [decodeFromElapsedTime, hf] using this
    · intro h
      obtain ⟨fr, e, hsp, hp0, hp1, hp2, hp3, hp4, hp5, hp6, hp7, hp8, hp9, hp10, hp11, hp12, hq0, hr0, hr1, hr2⟩ := hb.2 (by simpa [restElapsedTime, sizeIf, hf] using h)
      refine ⟨fr, ?_, hsp, hp0, hp1, hp2, hp3, hp4, hp5, hp6, hp7, hp8, hp9, hp10, hp11, hp12, by simp [hq0, hf], hr0, hr1, hr2⟩
      simpa [decodeFromElapsedTime, hf] using e
  | true =>
    constructor
    · intro h
      simp only [restElapsedTime, sizeIf, hf, if_true] at h
      by_cases hg : data.length < cursor + 2
      · simp [decodeFromElapsedTime, hf, hg]
      · have hcg : ¬ data.length < cursor + 2 := hg
        have h0 : cursor < data.length := by omega
        have h1 : cursor + 1 < data.length := by omega
        have hb := decodeFromRemainingTime_spec data flags (cursor + 2) speed average_speed total_distance inclination ramp_angle positive_elevation negative_elevation instantaneous_pace average_pace total_energy energy_per_hour energy_per_minute heart_rate metabolic_equivalent (some (u16le data[cursor] data[cursor + 1])) (by omega)
        simp [decodeFromElapsedTime, hf, hg, List.getElem?_eq_getElem h0, List.getElem?_eq_getElem h1]
        exact hb.1 (by omega)
    · intro h
      simp only [restElapsedTime, sizeIf, hf, if_true] at h
      have hg : ¬ data.length < cursor + 2 := by omega
      have h0 : cursor < data.length := by omega
      have h1 : cursor + 1 < data.length := by omega
      have hb := decodeFromRemainingTime_spec data flags (cursor + 2) speed average_speed total_distance inclination ramp_angle positive_elevation negative_elevation instantaneous_pace average_pace total_energy energy_per_hour energy_per_minute heart_rate metabolic_equivalent (some (u16le data[cursor] data[cursor + 1])) (by omega)
      obtain ⟨fr, e, hsp, hp0, hp1, hp2, hp3, hp4, hp5, hp6, hp7, hp8, hp9, hp10, hp11, hp12, hq0, hr0, hr1, hr2⟩ := hb.2 (by omega)
      refine ⟨fr, ?_, hsp, hp0, hp1, hp2, hp3, hp4, hp5, hp6, hp7, hp8, hp9, hp10, hp11, hp12, by simp [hq0, hf], hr0, hr1, hr2⟩
      simp [decodeFromElapsedTime, hf, hg, List.getElem?_eq_getElem h0, List.getElem?_eq_getElem h1, e]

theorem decodeFromMetabolicEquivalent_spec (data : List ℕ) (flags : TreadmillDataFlags)
    (cursor speed : ℕ) (average_speed : Option ℕ) (total_distance : Option ℕ) (inclination : Option ℤ) (ramp_angle : Option ℤ) (positive_elevation : Option ℕ) (negative_elevation : Option ℕ) (instantaneous_pace : Option ℕ) (average_pace : Option ℕ) (total_energy : Option ℕ) (energy_per_hour : Option ℕ) (energy_per_minute : Option ℕ) (heart_rate : Option ℕ)
    (hc : cursor ≤ data.length) :
    (data.length < cursor + restMetabolicEquivalent flags →
      decodeFromMetabolicEquivalent data flags cursor speed average_speed total_distance inclination ramp_angle positive_elevation negative_elevation instantaneous_pace average_pace total_energy energy_per_hour energy_per_minute heart_rate = .error .notEnoughData) ∧
    (cursor + restMetabolicEquivalent flags ≤ data.length →
      ∃ fr, decodeFromMetabolicEquivalent data flags cursor speed average_speed total_distance inclination ramp_angle positive_elevation negative_elevation instantaneous_pace average_pace total_energy energy_per_hour energy_per_minute heart_rate = .ok fr ∧
        fr.speed = speed ∧
        fr.average_speed = average_speed ∧
        fr.total_distance = total_distance ∧
        fr.inclination = inclination ∧
        fr.ramp_angle = ramp_angle ∧
        fr.positive_elevation = positive_elevation ∧
        fr.negative_elevation = negative_elevation ∧
        fr.instantaneous_pace = instantaneous_pace ∧
        fr.average_pace = average_pace ∧
        fr.total_energy = total_energy ∧
        fr.energy_per_hour = energy_per_hour ∧
        fr.energy_per_minute = energy_per_minute ∧
        fr.heart_rate = heart_rate ∧
        fr.metabolic_equivalent.isSome = flags.metabolic_equivalent ∧
        fr.elapsed_time.isSome = flags.elapsed_time ∧
        fr.remaining_time.isSome = flags.remaining_time ∧
        fr.force_on_belt.isSome = flags.force_on_belt_and_power_output ∧
        fr.power_output.isSome = flags.force_on_belt_and_power_output) := by
  cases hf : flags.metabolic_equivalent with
  | false =>
    have hb := decodeFromElapsedTime_spec data flags cursor speed average_speed total_distance inclination ramp_angle positive_elevation negative_elevation instantaneous_pace average_pace total_energy energy_per_hour energy_per_minute heart_rate none hc
    constructor
    · intro h
      have := hb.1 (by simpa [restMetabolicEquivalent, sizeIf, hf] using h)
      simpa [decodeFromMetabolicEquivalent, hf] using this
    · intro h
      obtain ⟨fr, e, hsp, hp0, hp1, hp2, hp3, hp4, hp5, hp6, hp7, hp8, hp9, hp10, hp11, hq0, hr0, hr1, hr2, hr3⟩ := hb.2 (by simpa [restMetabolicEquivalent, sizeIf, hf] using h)
      refine ⟨fr, ?_, hsp, hp0, hp1, hp2, hp3, hp4, hp5, hp6, hp7, hp8, hp9, hp10, hp11, by simp [hq0, hf], hr0, hr1, hr2, hr3⟩
      simpa [decodeFromMetabolicEquivalent, hf] using e
  | true =>
    constructor
    · intro h
      simp only [restMetabolicEquivalent, sizeIf, hf, if_true] at h
      by_cases hg : data.length < cursor + 1
      · simp [decodeFromMetabolicEquivalent, hf, hg]
      · have hcg : ¬ data.length < cursor + 1 := hg
        have h0 : cursor < data.length := by omega
        have hb := decodeFromElapsedTime_spec data flags (cursor + 1) speed average_speed total_distance inclination ramp_angle positive_elevation negative_elevation instantaneous_pace average_pace total_energy energy_per_hour energy_per_minute heart_rate (some data[cursor]) (by omega)
        simp [decodeFromMetabolicEquivalent, hf, hg, List.getElem?_eq_getElem h0]
        exact hb.1 (by omega)
    · intro h
      simp only [restMetabolicEquivalent, sizeIf, hf, if_true] at h
      have hg : ¬ data.length < cursor + 1 := by omega
      have h0 : cursor < data.length := by omega
      have hb := decodeFromElapsedTime_spec data flags (cursor + 1) speed average_speed total_distance inclination ramp_angle positive_elevation negative_elevation instantaneous_pace average_pace total_energy energy_per_hour energy_per_minute heart_rate (some data[cursor]) (by omega)
      obtain ⟨fr, e, hsp, hp0, hp1, hp2, hp3, hp4, hp5, hp6, hp7, hp8, hp9, hp10, hp11, hq0, hr0, hr1, hr2, hr3⟩ := hb.2 (by omega)
      refine ⟨fr, ?_, hsp, hp0, hp1, hp2, hp3, hp4, hp5, hp6, hp7, hp8, hp9, hp10, hp11, by simp [hq0, hf], hr0, hr1, hr2, hr3⟩
      simp [decodeFromMetabolicEquivalent, hf, hg, List.getElem?_eq_getElem h0, e]

theorem decodeFromHeartRate_spec (data : List ℕ) (flags : TreadmillDataFlags)
    (cursor speed : ℕ) (average_speed : Option ℕ) (total_distance : Option ℕ) (inclination : Option ℤ) (ramp_angle : Option ℤ) (positive_elevation : Option ℕ) (negative_elevation : Option ℕ) (instantaneous_pace : Option ℕ) (average_pace : Option ℕ) (total_energy : Option ℕ) (energy_per_hour : Option ℕ) (energy_per_minute : Option ℕ)
    (hc : cursor ≤ data.length) :
    (data.length < cursor + restHeartRate flags →
      decodeFromHeartRate data flags cursor speed average_speed total_distance inclination ramp_angle positive_elevation negative_elevation instantaneous_pace average_pace total_energy energy_per_hour energy_per_minute = .error .notEnoughData) ∧
    (cursor + restHeartRate flags ≤ data.length →
      ∃ fr, decodeFromHeartRate data flags cursor speed average_speed total_distance inclination ramp_angle positive_elevation negative_elevation instantaneous_pace average_pace total_energy energy_per_hour energy_per_minute = .ok fr ∧
        fr.speed = speed ∧
        fr.average_speed = average_speed ∧
        fr.total_distance = total_distance ∧
        fr.inclination = inclination ∧
        fr.ramp_angle = ramp_angle ∧
        fr.positive_elevation = positive_elevation ∧
        fr.negative_elevation = negative_elevation ∧
        fr.instantaneous_pace = instantaneous_pace ∧
        fr.average_pace = average_pace ∧
        fr.total_energy = total_energy ∧
        fr.energy_per_hour = energy_per_hour ∧
        fr.energy_per_minute = energy_per_minute ∧
        fr.heart_rate.isSome = flags.heart_rate ∧
        fr.metabolic_equivalent.isSome = flags.metabolic_equivalent ∧
        fr.elapsed_time.isSome = flags.elapsed_time ∧
        fr.remaining_time.isSome = flags.remaining_time ∧
        fr.force_on_belt.isSome = flags.force_on_belt_and_power_output ∧
        fr.power_output.isSome = flags.force_on_belt_and_power_output) := by
  cases hf : flags.heart_rate with
  | false =>
    have hb := decodeFromMetabolicEquivalent_spec data flags cursor speed average_speed total_distance inclination ramp_angle positive_elevation negative_elevation instantaneous_pace average_pace total_energy energy_per_hour energy_per_minute none hc
    constructor
    · intro h
      have := hb.1 (by simpa [restHeartRate, sizeIf, hf] using h)
      simpa [decodeFromHeartRate, hf] using this
    · intro h
      obtain ⟨fr, e, hsp, hp0, hp1, hp2, hp3, hp4, hp5, hp6, hp7, hp8, hp9, hp10, hq0, hr0, hr1, hr2, hr3, hr4⟩ := hb.2 (by simpa [restHeartRate, sizeIf, hf] using h)
      refine ⟨fr, ?_, hsp, hp0, hp1, hp2, hp3, hp4, hp5, hp6, hp7, hp8, hp9, hp10, by simp [hq0, hf], hr0, hr1, hr2, hr3, hr4⟩
      simpa [decodeFromHeartRate, hf] using e
  | true =>
    constructor
    · intro h
      simp only [restHeartRate, sizeIf, hf, if_true] at h
      by_cases hg : data.length < cursor + 1
      · simp [decodeFromHeartRate, hf, hg]
      · have hcg : ¬ data.length < cursor + 1 := hg
        have h0 : cursor < data.length := by omega
        have hb := decodeFromMetabolicEquivalent_spec data flags (cursor + 1) speed average_speed total_distance inclination ramp_angle positive_elevation negative_elevation instantaneous_pace average_pace total_energy energy_per_hour energy_per_minute (some data[cursor]) (by omega)
        simp [decodeFromHeartRate, hf, hg, List.getElem?_eq_getElem h0]
        exact hb.1 (by omega)
    · intro h
      simp only [restHeartRate, sizeIf, hf, if_true] at h
      have hg : ¬ data.length < cursor + 1 := by omega
      have h0 : cursor < data.length := by omega
      have hb := decodeFromMetabolicEquivalent_spec data flags (cursor + 1) speed average_speed total_distance inclination ramp_angle positive_elevation negative_elevation instantaneous_pace average_pace total_energy energy_per_hour energy_per_minute (some data[cursor]) (by omega)
      obtain ⟨fr, e, hsp, hp0, hp1, hp2, hp3, hp4, hp5, hp6, hp7, hp8, hp9, hp10, hq0, hr0, hr1, hr2, hr3, hr4⟩ := hb.2 (by omega)
      refine ⟨fr, ?_, hsp, hp0, hp1, hp2, hp3, hp4, hp5, hp6, hp7, hp8, hp9, hp10, by simp [hq0, hf], hr0, hr1, hr2, hr3, hr4⟩
      simp [decodeFromHeartRate, hf, hg, List.getElem?_eq_getElem h0, e]

theorem decodeFromEnergy_spec (data : List ℕ) (flags : TreadmillDataFlags)
    (cursor speed : ℕ) (average_speed : Option ℕ) (total_distance : Option ℕ) (inclination : Option ℤ) (ramp_angle : Option ℤ) (positive_elevation : Option ℕ) (negative_elevation : Option ℕ) (instantaneous_pace : Option ℕ) (average_pace : Option ℕ)
    (hc : cursor ≤ data.length) :
    (data.length < cursor + restEnergy flags →
      decodeFromEnergy data flags cursor speed average_speed total_distance inclination ramp_angle positive_elevation negative_elevation instantaneous_pace average_pace = .error .notEnoughData) ∧
    (cursor + restEnergy flags ≤ data.length →
      ∃ fr, decodeFromEnergy data flags cursor speed average_speed total_distance inclination ramp_angle positive_elevation negative_elevation instantaneous_pace average_pace = .ok fr ∧
        fr.speed = speed ∧
        fr.average_speed = average_speed ∧
        fr.total_distance = total_distance ∧
        fr.inclination = inclination ∧
        fr.ramp_angle = ramp_angle ∧
        fr.positive_elevation = positive_elevation ∧
        fr.negative_elevation = negative_elevation ∧
        fr.instantaneous_pace = instantaneous_pace ∧
        fr.average_pace = average_pace ∧
        fr.total_energy.isSome = flags.energy ∧
        fr.energy_per_hour.isSome = flags.energy ∧
        fr.energy_per_minute.isSome = flags.energy ∧
        fr.heart_rate.isSome = flags.heart_rate ∧
        fr.metabolic_equivalent.isSome = flags.metabolic_equivalent ∧
        fr.elapsed_time.isSome = flags.elapsed_time ∧
        fr.remaining_time.isSome = flags.remaining_time ∧
        fr.force_on_belt.isSome = flags.force_on_belt_and_power_output ∧
        fr.power_output.isSome = flags.force_on_belt_and_power_output) := by
  cases hf : flags.energy with
  | false =>
    have hb := decodeFromHeartRate_spec data flags cursor speed average_speed total_distance inclination ramp_angle positive_elevation negative_elevation instantaneous_pace average_pace none none none hc
    constructor
    · intro h
      have := hb.1 (by simpa [restEnergy, sizeIf, hf] using h)
      simpa [decodeFromEnergy, hf] using this
    · intro h
      obtain ⟨fr, e, hsp, hp0, hp1, hp2, hp3, hp4, hp5, hp6, hp7, hq0, hq1, hq2, hr0, hr1, hr2, hr3, hr4, hr5⟩ := hb.2 (by simpa [restEnergy, sizeIf, hf] using h)
      refine ⟨fr, ?_, hsp, hp0, hp1, hp2, hp3, hp4, hp5, hp6, hp7, by simp [hq0, hf], by simp [hq1, hf], by simp [hq2, hf], hr0, hr1, hr2, hr3, hr4, hr5⟩
      simpa [decodeFromEnergy, hf] using e
  | true =>
    constructor
    · intro h
      simp only [restEnergy, sizeIf, hf, if_true] at h
      by_cases hg : data.length < cursor + 5
      · simp [decodeFromEnergy, hf, hg]
      · have hcg : ¬ data.length < cursor + 5 := hg
        have h0 : cursor < data.length := by omega
        have h1 : cursor + 1 < data.length := by omega
        have h2 : cursor + 2 < data.length := by omega
        have h3 : cursor + 3 < data.length := by omega
        have h4 : cursor + 4 < data.length := by omega
        have hb := decodeFromHeartRate_spec data flags (cursor + 5) speed average_speed total_distance inclination ramp_angle positive_elevation negative_elevation instantaneous_pace average_pace (some (u16le data[cursor] data[cursor + 1])) (some (u16le data[cursor + 2] data[cursor + 3])) (some data[cursor + 4]) (by omega)
        simp [decodeFromEnergy, hf, hg, List.getElem?_eq_getElem h0, List.getElem?_eq_getElem h1, List.getElem?_eq_getElem h2, List.getElem?_eq_getElem h3, List.getElem?_eq_getElem h4]
        exact hb.1 (by omega)
    · intro h
      simp only [restEnergy, sizeIf, hf, if_true] at h
      have hg : ¬ data.length < cursor + 5 := by omega
      have h0 : cursor < data.length := by omega
      have h1 : cursor + 1 < data.length := by omega
      have h2 : cursor + 2 < data.length := by omega
      have h3 : cursor + 3 < data.length := by omega
      have h4 : cursor + 4 < data.length := by omega
      have hb := decodeFromHeartRate_spec data flags (cursor + 5) speed average_speed total_distance inclination ramp_angle positive_elevation negative_elevation instantaneous_pace average_pace (some (u16le data[cursor] data[cursor + 1])) (some (u16le data[cursor + 2] data[cursor + 3])) (some data[cursor + 4]) (by omega)
      obtain ⟨fr, e, hsp, hp0, hp1, hp2, hp3, hp4, hp5, hp6, hp7, hq0, hq1, hq2, hr0, hr1, hr2, hr3, hr4, hr5⟩ := hb.2 (by omega)
      refine ⟨fr, ?_, hsp, hp0, hp1, hp2, hp3, hp4, hp5, hp6, hp7, by simp [hq0, hf], by simp [hq1, hf], by simp [hq2, hf], hr0, hr1, hr2, hr3, hr4, hr5⟩
      simp [decodeFromEnergy, hf, hg, List.getElem?_eq_getElem h0, List.getElem?_eq_getElem h1, List.getElem?_eq_getElem h2, List.getElem?_eq_getElem h3, List.getElem?_eq_getElem h4, e]

theorem decodeFromAveragePace_spec (data : List ℕ) (flags : TreadmillDataFlags)
    (cursor speed : ℕ) (average_speed : Option ℕ) (total_distance : Option ℕ) (inclination : Option ℤ) (ramp_angle : Option ℤ) (positive_elevation : Option ℕ) (negative_elevation : Option ℕ) (instantaneous_pace : Option ℕ)
    (hc : cursor ≤ data.length) :
    (data.length < cursor + restAveragePace flags →
      decodeFromAveragePace data flags cursor speed average_speed total_distance inclination ramp_angle positive_elevation negative_elevation instantaneous_pace = .error .notEnoughData) ∧
    (cursor + restAveragePace flags ≤ data.length →
      ∃ fr, decodeFromAveragePace data flags cursor speed average_speed total_distance inclination ramp_angle positive_elevation negative_elevation instantaneous_pace = .ok fr ∧
        fr.speed = speed ∧
        fr.average_speed = average_speed ∧
        fr.total_distance = total_distance ∧
        fr.inclination = inclination ∧
        fr.ramp_angle = ramp_angle ∧
        fr.positive_elevation = positive_elevation ∧
        fr.negative_elevation = negative_elevation ∧
        fr.instantaneous_pace = instantaneous_pace ∧
        fr.average_pace.isSome = flags.average_pace ∧
        fr.total_energy.isSome = flags.energy ∧
        fr.energy_per_hour.isSome = flags.energy ∧
        fr.energy_per_minute.isSome = flags.energy ∧
        fr.heart_rate.isSome = flags.heart_rate ∧
        fr.metabolic_equivalent.isSome = flags.metabolic_equivalent ∧
        fr.elapsed_time.isSome = flags.elapsed_time ∧
        fr.remaining_time.isSome = flags.remaining_time ∧
        fr.force_on_belt.isSome = flags.force_on_belt_and_power_output ∧
        fr.power_output.isSome = flags.force_on_belt_and_power_output) := by
  cases hf : flags.average_pace with
  | false =>
    have hb := decodeFromEnergy_spec data flags cursor speed average_speed total_distance inclination ramp_angle positive_elevation negative_elevation instantaneous_pace none hc
    constructor
    · intro h
      have := hb.1 (by simpa [restAveragePace, sizeIf, hf] using h)
      simpa [decodeFromAveragePace, hf] using this
    · intro h
      obtain ⟨fr, e, hsp, hp0, hp1, hp2, hp3, hp4, hp5, hp6, hq0, hr0, hr1, hr2, hr3, hr4, hr5, hr6, hr7, hr8⟩ := hb.2 (by simpa [restAveragePace, sizeIf, hf] using h)
      refine ⟨fr, ?_, hsp, hp0, hp1, hp2, hp3, hp4, hp5, hp6, by simp [hq0, hf], hr0, hr1, hr2, hr3, hr4, hr5, hr6, hr7, hr8⟩
      simpa [decodeFromAveragePace, hf] using e
  | true =>
    constructor
    · intro h
      simp only [restAveragePace, sizeIf, hf, if_true] at h
      by_cases hg : data.length < cursor + 2
      · simp [decodeFromAveragePace, hf, hg]
      · have hcg : ¬ data.length < cursor + 2 := hg
        have h0 : cursor < data.length := by omega
        have h1 : cursor + 1 < data.length := by omega
        have hb := decodeFromEnergy_spec data flags (cursor + 2) speed average_speed total_distance inclination ramp_angle positive_elevation negative_elevation instantaneous_pace (some (u16le data[cursor] data[cursor + 1])) (by omega)
        simp [decodeFromAveragePace, hf, hg, List.getElem?_eq_getElem h0, List.getElem?_eq_getElem h1]
        exact hb.1 (by omega)
    · intro h
      simp only [restAveragePace, sizeIf, hf, if_true] at h
      have hg : ¬ data.length < cursor + 2 := by omega
      have h0 : cursor < data.length := by omega
      have h1 : cursor + 1 < data.length := by omega
      have hb := decodeFromEnergy_spec data flags (cursor + 2) speed average_speed total_distance inclination ramp_angle positive_elevation negative_elevation instantaneous_pace (some (u16le data[cursor] data[cursor + 1])) (by omega)
      obtain ⟨fr, e, hsp, hp0, hp1, hp2, hp3, hp4, hp5, hp6, hq0, hr0, hr1, hr2, hr3, hr4, hr5, hr6, hr7, hr8⟩ := hb.2 (by omega)
      refine ⟨fr, ?_, hsp, hp0, hp1, hp2, hp3, hp4, hp5, hp6, by simp [hq0, hf], hr0, hr1, hr2, hr3, hr4, hr5, hr6, hr7, hr8⟩
      simp [decodeFromAveragePace, hf, hg, List.getElem?_eq_getElem h0, List.getElem?_eq_getElem h1, e]

theorem decodeFromInstantaneousPace_spec (data : List ℕ) (flags : TreadmillDataFlags)
    (cursor speed : ℕ) (average_speed : Option ℕ) (total_distance : Option ℕ) (inclination : Option ℤ) (ramp_angle : Option ℤ) (positive_elevation : Option ℕ) (negative_elevation : Option ℕ)
    (hc : cursor ≤ data.length) :
    (data.length < cursor + restInstantaneousPace flags →
      decodeFromInstantaneousPace data flags cursor speed average_speed total_distance inclination ramp_angle positive_elevation negative_elevation = .error .notEnoughData) ∧
    (cursor + restInstantaneousPace flags ≤ data.length →
      ∃ fr, decodeFromInstantaneousPace data flags cursor speed average_speed total_distance inclination ramp_angle positive_elevation negative_elevation = .ok fr ∧
        fr.speed = speed ∧
        fr.average_speed = average_speed ∧
        fr.total_distance = total_distance ∧
        fr.inclination = inclination ∧
        fr.ramp_angle = ramp_angle ∧
        fr.positive_elevation = positive_elevation ∧
        fr.negative_elevation = negative_elevation ∧
        fr.instantaneous_pace.isSome = flags.instantaneous_pace ∧
        fr.average_pace.isSome = flags.average_pace ∧
        fr.total_energy.isSome = flags.energy ∧
        fr.energy_per_hour.isSome = flags.energy ∧
        fr.energy_per_minute.isSome = flags.energy ∧
        fr.heart_rate.isSome = flags.heart_rate ∧
        fr.metabolic_equivalent.isSome = flags.metabolic_equivalent ∧
        fr.elapsed_time.isSome = flags.elapsed_time ∧
        fr.remaining_time.isSome = flags.remaining_time ∧
        fr.force_on_belt.isSome = flags.force_on_belt_and_power_output ∧
        fr.power_output.isSome = flags.force_on_belt_and_power_output) := by
  cases hf : flags.instantaneous_pace with
  | false =>
    have hb := decodeFromAveragePace_spec data flags cursor speed average_speed total_distance inclination ramp_angle positive_elevation negative_elevation none hc
    constructor
    · intro h
      have := hb.1 (by simpa [restInstantaneousPace, sizeIf, hf] using h)
      simpa [decodeFromInstantaneousPace, hf] using this
    · intro h
      obtain ⟨fr, e, hsp, hp0, hp1, hp2, hp3, hp4, hp5, hq0, hr0, hr1, hr2, hr3, hr4, hr5, hr6, hr7, hr8, hr9⟩ := hb.2 (by simpa [restInstantaneousPace, sizeIf, hf] using h)
      refine ⟨fr, ?_, hsp, hp0, hp1, hp2, hp3, hp4, hp5, by simp [hq0, hf], hr0, hr1, hr2, hr3, hr4, hr5, hr6, hr7, hr8, hr9⟩
      simpa [decodeFromInstantaneousPace, hf] using e
  | true =>
    constructor
    · intro h
      simp only [restInstantaneousPace, sizeIf, hf, if_true] at h
      by_cases hg : data.length < cursor + 2
      · simp [decodeFromInstantaneousPace, hf, hg]
      · have hcg : ¬ data.length < cursor + 2 := hg
        have h0 : cursor < data.length := by omega
        have h1 : cursor + 1 < data.length := by omega
        have hb := decodeFromAveragePace_spec data flags (cursor + 2) speed average_speed total_distance inclination ramp_angle positive_elevation negative_elevation (some (u16le data[cursor] data[cursor + 1])) (by omega)
        simp [decodeFromInstantaneousPace, hf, hg, List.getElem?_eq_getElem h0, List.getElem?_eq_getElem h1]
        exact hb.1 (by omega)
    · intro h
      simp only [restInstantaneousPace, sizeIf, hf, if_true] at h
      have hg : ¬ data.length < cursor + 2 := by omega
      have h0 : cursor < data.length := by omega
      have h1 : cursor + 1 < data.length := by omega
      have hb := decodeFromAveragePace_spec data flags (cursor + 2) speed average_speed total_distance inclination ramp_angle positive_elevation negative_elevation (some (u16le data[cursor] data[cursor + 1])) (by omega)
      obtain ⟨fr, e, hsp, hp0, hp1, hp2, hp3, hp4, hp5, hq0, hr0, hr1, hr2, hr3, hr4, hr5, hr6, hr7, hr8, hr9⟩ := hb.2 (by omega)
      refine ⟨fr, ?_, hsp, hp0, hp1, hp2, hp3, hp4, hp5, by simp [hq0, hf], hr0, hr1, hr2, hr3, hr4, hr5, hr6, hr7, hr8, hr9⟩
      simp [decodeFromInstantaneousPace, hf, hg, List.getElem?_eq_getElem h0, List.getElem?_eq_getElem h1, e]

theorem decodeFromElevationGain_spec (data : List ℕ) (flags : TreadmillDataFlags)
    (cursor speed : ℕ) (average_speed : Option ℕ) (total_distance : Option ℕ) (inclination : Option ℤ) (ramp_angle : Option ℤ)
    (hc : cursor ≤ data.length) :
    (data.length < cursor + restElevationGain flags →
      decodeFromElevationGain data flags cursor speed average_speed total_distance inclination ramp_angle = .error .notEnoughData) ∧
    (cursor + restElevationGain flags ≤ data.length →
      ∃ fr, decodeFromElevationGain data flags cursor speed average_speed total_distance inclination ramp_angle = .ok fr ∧
        fr.speed = speed ∧
        fr.average_speed = average_speed ∧
        fr.total_distance = total_distance ∧
        fr.inclination = inclination ∧
        fr.ramp_angle = ramp_angle ∧
        fr.positive_elevation.isSome = flags.elevation_gain ∧
        fr.negative_elevation.isSome = flags.elevation_gain ∧
        fr.instantaneous_pace.isSome = flags.instantaneous_pace ∧
        fr.average_pace.isSome = flags.average_pace ∧
        fr.total_energy.isSome = flags.energy ∧
        fr.energy_per_hour.isSome = flags.energy ∧
        fr.energy_per_minute.isSome = flags.energy ∧
        fr.heart_rate.isSome = flags.heart_rate ∧
        fr.metabolic_equivalent.isSome = flags.metabolic_equivalent ∧
        fr.elapsed_time.isSome = flags.elapsed_time ∧
        fr.remaining_time.isSome = flags.remaining_time ∧
        fr.force_on_belt.isSome = flags.force_on_belt_and_power_output ∧
        fr.power_output.isSome = flags.force_on_belt_and_power_output) := by
  cases hf : flags.elevation_gain with
  | false =>
    have hb := decodeFromInstantaneousPace_spec data flags cursor speed average_speed total_distance inclination ramp_angle none none hc
    constructor
    · intro h
      have := hb.1 (by simpa [restElevationGain, sizeIf, hf] using h)
      simpa [decodeFromElevationGain, hf] using this
    · intro h
      obtain ⟨fr, e, hsp, hp0, hp1, hp2, hp3, hq0, hq1, hr0, hr1, hr2, hr3, hr4, hr5, hr6, hr7, hr8, hr9, hr10⟩ := hb.2 (by simpa [restElevationGain, sizeIf, hf] using h)
      refine ⟨fr, ?_, hsp, hp0, hp1, hp2, hp3, by simp [hq0, hf], by simp [hq1, hf], hr0, hr1, hr2, hr3, hr4, hr5, hr6, hr7, hr8, hr9, hr10⟩
      simpa [decodeFromElevationGain, hf] using e
  | true =>
    constructor
    · intro h
      simp only [restElevationGain, sizeIf, hf, if_true] at h
      by_cases hg : data.length < cursor + 4
      · simp [decodeFromElevationGain, hf, hg]
      · have hcg : ¬ data.length < cursor + 4 := hg
        have h0 : cursor < data.length := by omega
        have h1 : cursor + 1 < data.length := by omega
        have h2 : cursor + 2 < data.length := by omega
        have h3 : cursor + 3 < data.length := by omega
        have hb := decodeFromInstantaneousPace_spec data flags (cursor + 4) speed average_speed total_distance inclination ramp_angle (some (u16le data[cursor] data[cursor + 1])) (some (u16le data[cursor + 2] data[cursor + 3])) (by omega)
        simp [decodeFromElevationGain, hf, hg, List.getElem?_eq_getElem h0, List.getElem?_eq_getElem h1, List.getElem?_eq_getElem h2, List.getElem?_eq_getElem h3]
        exact hb.1 (by omega)
    · intro h
      simp only [restElevationGain, sizeIf, hf, if_true] at h
      have hg : ¬ data.length < cursor + 4 := by omega
      have h0 : cursor < data.length := by omega
      have h1 : cursor + 1 < data.length := by omega
      have h2 : cursor + 2 < data.length := by omega
      have h3 : cursor + 3 < data.length := by omega
      have hb := decodeFromInstantaneousPace_spec data flags (cursor + 4) speed average_speed total_distance inclination ramp_angle (some (u16le data[cursor] data[cursor + 1])) (some (u16le data[cursor + 2] data[cursor + 3])) (by omega)
      obtain ⟨fr, e, hsp, hp0, hp1, hp2, hp3, hq0, hq1, hr0, hr1, hr2, hr3, hr4, hr5, hr6, hr7, hr8, hr9, hr10⟩ := hb.2 (by omega)
      refine ⟨fr, ?_, hsp, hp0, hp1, hp2, hp3, by simp [hq0, hf], by simp [hq1, hf], hr0, hr1, hr2, hr3, hr4, hr5, hr6, hr7, hr8, hr9, hr10⟩
      simp [decodeFromElevationGain, hf, hg, List.getElem?_eq_getElem h0, List.getElem?_eq_getElem h1, List.getElem?_eq_getElem h2, List.getElem?_eq_getElem h3, e]

theorem decodeFromInclination_spec (data : List ℕ) (flags : TreadmillDataFlags)
    (cursor speed : ℕ) (average_speed : Option ℕ) (total_distance : Option ℕ)
    (hc : cursor ≤ data.length) :
    (data.length < cursor + restInclination flags →
      decodeFromInclination data flags cursor speed average_speed total_distance = .error .notEnoughData) ∧
    (cursor + restInclination flags ≤ data.length →
      ∃ fr, decodeFromInclination data flags cursor speed average_speed total_distance = .ok fr ∧
        fr.speed = speed ∧
        fr.average_speed = average_speed ∧
        fr.total_distance = total_distance ∧
        fr.inclination.isSome = flags.inclination_and_ramp_angle ∧
        fr.ramp_angle.isSome = flags.inclination_and_ramp_angle ∧
        fr.positive_elevation.isSome = flags.elevation_gain ∧
        fr.negative_elevation.isSome = flags.elevation_gain ∧
        fr.instantaneous_pace.isSome = flags.instantaneous_pace ∧
        fr.average_pace.isSome = flags.average_pace ∧
        fr.total_energy.isSome = flags.energy ∧
        fr.energy_per_hour.isSome = flags.energy ∧
        fr.energy_per_minute.isSome = flags.energy ∧
        fr.heart_rate.isSome = flags.heart_rate ∧
        fr.metabolic_equivalent.isSome = flags.metabolic_equivalent ∧
        fr.elapsed_time.isSome = flags.elapsed_time ∧
        fr.remaining_time.isSome = flags.remaining_time ∧
        fr.force_on_belt.isSome = flags.force_on_belt_and_power_output ∧
        fr.power_output.isSome = flags.force_on_belt_and_power_output) := by
  cases hf : flags.inclination_and_ramp_angle with
  | false =>
    have hb := decodeFromElevationGain_spec data flags cursor speed average_speed total_distance none none hc
    constructor
    · intro h
      have := hb.1 (by simpa [restInclination, sizeIf, hf] using h)
      simpa [decodeFromInclination, hf] using this
    · intro h
      obtain ⟨fr, e, hsp, hp0, hp1, hq0, hq1, hr0, hr1, hr2, hr3, hr4, hr5, hr6, hr7, hr8, hr9, hr10, hr11, hr12⟩ := hb.2 (by simpa [restInclination, sizeIf, hf] using h)
      refine ⟨fr, ?_, hsp, hp0, hp1, by simp [hq0, hf], by simp [hq1, hf], hr0, hr1, hr2, hr3, hr4, hr5, hr6, hr7, hr8, hr9, hr10, hr11, hr12⟩
      simpa [decodeFromInclination, hf] using e
  | true =>
    constructor
    · intro h
      simp only [restInclination, sizeIf, hf, if_true] at h
      by_cases hg : data.length < cursor + 4
      · simp [decodeFromInclination, hf, hg]
      · have hcg : ¬ data.length < cursor + 4 := hg
        have h0 : cursor < data.length := by omega
        have h1 : cursor + 1 < data.length := by omega
        have h2 : cursor + 2 < data.length := by omega
        have h3 : cursor + 3 < data.length := by omega
        have hb := decodeFromElevationGain_spec data flags (cursor + 4) speed average_speed total_distance (some (i16le data[cursor] data[cursor + 1])) (some (i16le data[cursor + 2] data[cursor + 3])) (by omega)
        simp [decodeFromInclination, hf, hg, List.getElem?_eq_getElem h0, List.getElem?_eq_getElem h1, List.getElem?_eq_getElem h2, List.getElem?_eq_getElem h3]
        exact hb.1 (by omega)
    · intro h
      simp only [restInclination, sizeIf, hf, if_true] at h
      have hg : ¬ data.length < cursor + 4 := by omega
      have h0 : cursor < data.length := by omega
      have h1 : cursor + 1 < data.length := by omega
      have h2 : cursor + 2 < data.length := by omega
      have h3 : cursor + 3 < data.length := by omega
      have hb := decodeFromElevationGain_spec data flags (cursor + 4) speed average_speed total_distance (some (i16le data[cursor] data[cursor + 1])) (some (i16le data[cursor + 2] data[cursor + 3])) (by omega)
      obtain ⟨fr, e, hsp, hp0, hp1, hq0, hq1, hr0, hr1, hr2, hr3, hr4, hr5, hr6, hr7, hr8, hr9, hr10, hr11, hr12⟩ := hb.2 (by omega)
      refine ⟨fr, ?_, hsp, hp0, hp1, by simp [hq0, hf], by simp [hq1, hf], hr0, hr1, hr2, hr3, hr4, hr5, hr6, hr7, hr8, hr9, hr10, hr11, hr12⟩
      simp [decodeFromInclination, hf, hg, List.getElem?_eq_getElem h0, List.getElem?_eq_getElem h1, List.getElem?_eq_getElem h2, List.getElem?_eq_getElem h3, e]

theorem decodeFromTotalDistance_spec (data : List ℕ) (flags : TreadmillDataFlags)
    (cursor speed : ℕ) (average_speed : Option ℕ)
    (hc : cursor ≤ data.length) :
    (data.length < cursor + restTotalDistance flags →
      decodeFromTotalDistance data flags cursor speed average_speed = .error .notEnoughData) ∧
    (cursor + restTotalDistance flags ≤ data.length →
      ∃ fr, decodeFromTotalDistance data flags cursor speed average_speed = .ok fr ∧
        fr.speed = speed ∧
        fr.average_speed = average_speed ∧
        fr.total_distance.isSome = flags.total_distance ∧
        fr.inclination.isSome = flags.inclination_and_ramp_angle ∧
        fr.ramp_angle.isSome = flags.inclination_and_ramp_angle ∧
        fr.positive_elevation.isSome = flags.elevation_gain ∧
        fr.negative_elevation.isSome = flags.elevation_gain ∧
        fr.instantaneous_pace.isSome = flags.instantaneous_pace ∧
        fr.average_pace.isSome = flags.average_pace ∧
        fr.total_energy.isSome = flags.energy ∧
        fr.energy_per_hour.isSome = flags.energy ∧
        fr.energy_per_minute.isSome = flags.energy ∧
        fr.heart_rate.isSome = flags.heart_rate ∧
        fr.metabolic_equivalent.isSome = flags.metabolic_equivalent ∧
        fr.elapsed_time.isSome = flags.elapsed_time ∧
        fr.remaining_time.isSome = flags.remaining_time ∧
        fr.force_on_belt.isSome = flags.force_on_belt_and_power_output ∧
        fr.power_output.isSome = flags.force_on_belt_and_power_output) := by
  cases hf : flags.total_distance with
  | false =>
    have hb := decodeFromInclination_spec data flags cursor speed average_speed none hc
    constructor
    · intro h
      have := hb.1 (by simpa [restTotalDistance, sizeIf, hf] using h)
      simpa [decodeFromTotalDistance, hf] using this
    · intro h
      obtain ⟨fr, e, hsp, hp0, hq0, hr0, hr1, hr2, hr3, hr4, hr5, hr6, hr7, hr8, hr9, hr10, hr11, hr12, hr13, hr14⟩ := hb.2 (by simpa [restTotalDistance, sizeIf, hf] using h)
      refine ⟨fr, ?_, hsp, hp0, by simp [hq0, hf], hr0, hr1, hr2, hr3, hr4, hr5, hr6, hr7, hr8, hr9, hr10, hr11, hr12, hr13, hr14⟩
      simpa [decodeFromTotalDistance, hf] using e
  | true =>
    constructor
    · intro h
      simp only [restTotalDistance, sizeIf, hf, if_true] at h
      by_cases hg : data.length < cursor + 3
      · simp [decodeFromTotalDistance, hf, hg]
      · have hcg : ¬ data.length < cursor + 3 := hg
        have h0 : cursor < data.length := by omega
        have h1 : cursor + 1 < data.length := by omega
        have h2 : cursor + 2 < data.length := by omega
        have hb := decodeFromInclination_spec data flags (cursor + 3) speed average_speed (some (u24le data[cursor] data[cursor + 1] data[cursor + 2])) (by omega)
        simp [decodeFromTotalDistance, hf, hg, List.getElem?_eq_getElem h0, List.getElem?_eq_getElem h1, List.getElem?_eq_getElem h2]
        exact hb.1 (by omega)
    · intro h
      simp only [restTotalDistance, sizeIf, hf, if_true] at h
      have hg : ¬ data.length < cursor + 3 := by omega
      have h0 : cursor < data.length := by omega
      have h1 : cursor + 1 < data.length := by omega
      have h2 : cursor + 2 < data.length := by omega
      have hb := decodeFromInclination_spec data flags (cursor + 3) speed average_speed (some (u24le data[cursor] data[cursor + 1] data[cursor + 2])) (by omega)
      obtain ⟨fr, e, hsp, hp0, hq0, hr0, hr1, hr2, hr3, hr4, hr5, hr6, hr7, hr8, hr9, hr10, hr11, hr12, hr13, hr14⟩ := hb.2 (by omega)
      refine ⟨fr, ?_, hsp, hp0, by simp [hq0, hf], hr0, hr1, hr2, hr3, hr4, hr5, hr6, hr7, hr8, hr9, hr10, hr11, hr12, hr13, hr14⟩
      simp [decodeFromTotalDistance, hf, hg, List.getElem?_eq_getElem h0, List.getElem?_eq_getElem h1, List.getElem?_eq_getElem h2, e]

theorem decodeFromAverageSpeed_spec (data : List ℕ) (flags : TreadmillDataFlags)
    (cursor speed : ℕ)
    (hc : cursor ≤ data.length) :
    (data.length < cursor + restAverageSpeed flags →
      decodeFromAverageSpeed data flags cursor speed = .error .notEnoughData) ∧
    (cursor + restAverageSpeed flags ≤ data.length →
      ∃ fr, decodeFromAverageSpeed data flags cursor speed = .ok fr ∧
        fr.speed = speed ∧
        fr.average_speed.isSome = flags.average_speed ∧
        fr.total_distance.isSome = flags.total_distance ∧
        fr.inclination.isSome = flags.inclination_and_ramp_angle ∧
        fr.ramp_angle.isSome = flags.inclination_and_ramp_angle ∧
        fr.positive_elevation.isSome = flags.elevation_gain ∧
        fr.negative_elevation.isSome = flags.elevation_gain ∧
        fr.instantaneous_pace.isSome = flags.instantaneous_pace ∧
        fr.average_pace.isSome = flags.average_pace ∧
        fr.total_energy.isSome = flags.energy ∧
        fr.energy_per_hour.isSome = flags.energy ∧
        fr.energy_per_minute.isSome = flags.energy ∧
        fr.heart_rate.isSome = flags.heart_rate ∧
        fr.metabolic_equivalent.isSome = flags.metabolic_equivalent ∧
        fr.elapsed_time.isSome = flags.elapsed_time ∧
        fr.remaining_time.isSome = flags.remaining_time ∧
        fr.force_on_belt.isSome = flags.force_on_belt_and_power_output ∧
        fr.power_output.isSome = flags.force_on_belt_and_power_output) := by
  cases hf : flags.average_speed with
  | false =>
    have hb := decodeFromTotalDistance_spec data flags cursor speed none hc
    constructor
    · intro h
      have := hb.1 (by simpa [restAverageSpeed, sizeIf, hf] using h)
      simpa [decodeFromAverageSpeed, hf] using this
    · intro h
      obtain ⟨fr, e, hsp, hq0, hr0, hr1, hr2, hr3, hr4, hr5, hr6, hr7, hr8, hr9, hr10, hr11, hr12, hr13, hr14, hr15⟩ := hb.2 (by simpa [restAverageSpeed, sizeIf, hf] using h)
      refine ⟨fr, ?_, hsp, by simp [hq0, hf], hr0, hr1, hr2, hr3, hr4, hr5, hr6, hr7, hr8, hr9, hr10, hr11, hr12, hr13, hr14, hr15⟩
      simpa [decodeFromAverageSpeed, hf] using e
  | true =>
    constructor
    · intro h
      simp only [restAverageSpeed, sizeIf, hf, if_true] at h
      by_cases hg : data.length < cursor + 2
      · simp [decodeFromAverageSpeed, hf, hg]
      · have hcg : ¬ data.length < cursor + 2 := hg
        have h0 : cursor < data.length := by omega
        have h1 : cursor + 1 < data.length := by omega
        have hb := decodeFromTotalDistance_spec data flags (cursor + 2) speed (some (u16le data[cursor] data[cursor + 1])) (by omega)
        simp [decodeFromAverageSpeed, hf, hg, List.getElem?_eq_getElem h0, List.getElem?_eq_getElem h1]
        exact hb.1 (by omega)
    · intro h
      simp only [restAverageSpeed, sizeIf, hf, if_true] at h
      have hg : ¬ data.length < cursor + 2 := by omega
      have h0 : cursor < data.length := by omega
      have h1 : cursor + 1 < data.length := by omega
      have hb := decodeFromTotalDistance_spec data flags (cursor + 2) speed (some (u16le data[cursor] data[cursor + 1])) (by omega)
      obtain ⟨fr, e, hsp, hq0, hr0, hr1, hr2, hr3, hr4, hr5, hr6, hr7, hr8, hr9, hr10, hr11, hr12, hr13, hr14, hr15⟩ := hb.2 (by omega)
      refine ⟨fr, ?_, hsp, by simp [hq0, hf], hr0, hr1, hr2, hr3, hr4, hr5, hr6, hr7, hr8, hr9, hr10, hr11, hr12, hr13, hr14, hr15⟩
      simp [decodeFromAverageSpeed, hf, hg, List.getElem?_eq_getElem h0, List.getElem?_eq_getElem h1, e]

theorem decodeFromForceOnBelt_congr (data data' : List ℕ)
    (flags flags' : TreadmillDataFlags)
    (cursor speed : ℕ) (average_speed : Option ℕ) (total_distance : Option ℕ) (inclination : Option ℤ) (ramp_angle : Option ℤ) (positive_elevation : Option ℕ) (negative_elevation : Option ℕ) (instantaneous_pace : Option ℕ) (average_pace : Option ℕ) (total_energy : Option ℕ) (energy_per_hour : Option ℕ) (energy_per_minute : Option ℕ) (heart_rate : Option ℕ) (metabolic_equivalent : Option ℕ) (elapsed_time : Option ℕ) (remaining_time : Option ℕ)
    (hlen : data.length = data'.length)
    (hbytes : ∀ i, 2 ≤ i → data[i]? = data'[i]?)
    (hcur : 2 ≤ cursor)
    (hfl : FlagsAgree flags flags') :
    decodeFromForceOnBelt data flags cursor speed average_speed total_distance inclination ramp_angle positive_elevation negative_elevation instantaneous_pace average_pace total_energy energy_per_hour energy_per_minute heart_rate metabolic_equivalent elapsed_time remaining_time = decodeFromForceOnBelt data' flags' cursor speed average_speed total_distance inclination ramp_angle positive_elevation negative_elevation instantaneous_pace average_pace total_energy energy_per_hour energy_per_minute heart_rate metabolic_equivalent elapsed_time remaining_time := by
  cases hf : flags.force_on_belt_and_power_output with
  | false =>
    have hf2 : flags'.force_on_belt_and_power_output = false := by rw [← hfl.force_on_belt_and_power_output]; exact hf
    simp [decodeFromForceOnBelt, hf, hf2]
  | true =>
    have hf2 : flags'.force_on_belt_and_power_output = true := by rw [← hfl.force_on_belt_and_power_output]; exact hf
    simp only [decodeFromForceOnBelt, hf, hf2, if_true]
    rw [hlen]
    by_cases hg : data'.length < cursor + 4
    · simp [hg]
    · simp only [hg, if_false]
      rw [hbytes cursor (by omega), hbytes (cursor + 1) (by omega), hbytes (cursor + 2) (by omega), hbytes (cursor + 3) (by omega)]

theorem decodeFromRemainingTime_congr (data data' : List ℕ)
    (flags flags' : TreadmillDataFlags)
    (cursor speed : ℕ) (average_speed : Option ℕ) (total_distance : Option ℕ) (inclination : Option ℤ) (ramp_angle : Option ℤ) (positive_elevation : Option ℕ) (negative_elevation : Option ℕ) (instantaneous_pace : Option ℕ) (average_pace : Option ℕ) (total_energy : Option ℕ) (energy_per_hour : Option ℕ) (energy_per_minute : Option ℕ) (heart_rate : Option ℕ) (metabolic_equivalent : Option ℕ) (elapsed_time : Option ℕ)
    (hlen : data.length = data'.length)
    (hbytes : ∀ i, 2 ≤ i → data[i]? = data'[i]?)
    (hcur : 2 ≤ cursor)
    (hfl : FlagsAgree flags flags') :
    decodeFromRemainingTime data flags cursor speed average_speed total_distance inclination ramp_angle positive_elevation negative_elevation instantaneous_pace average_pace total_energy energy_per_hour energy_per_minute heart_rate metabolic_equivalent elapsed_time = decodeFromRemainingTime data' flags' cursor speed average_speed total_distance inclination ramp_angle positive_elevation negative_elevation instantaneous_pace average_pace total_energy energy_per_hour energy_per_minute heart_rate metabolic_equivalent elapsed_time := by
  cases hf : flags.remaining_time with
  | false =>
    have hf2 : flags'.remaining_time = false := by rw [← hfl.remaining_time]; exact hf
    simp only [decodeFromRemainingTime, hf, hf2, Bool.false_eq_true, if_false]
    exact decodeFromForceOnBelt_congr data data' flags flags' cursor speed average_speed total_distance inclination ramp_angle positive_elevation negative_elevation instantaneous_pace average_pace total_energy energy_per_hour energy_per_minute heart_rate metabolic_equivalent elapsed_time none hlen hbytes hcur hfl
  | true =>
    have hf2 : flags'.remaining_time = true := by rw [← hfl.remaining_time]; exact hf
    simp only [decodeFromRemainingTime, hf, hf2, if_true]
    rw [hlen]
    by_cases hg : data'.length < cursor + 2
    · simp [hg]
    · simp only [hg, if_false]
      rw [hbytes cursor (by omega), hbytes (cursor + 1) (by omega)]
      rcases data'[cursor]? with _ | b0 <;> rcases data'[cursor + 1]? with _ | b1 <;>
        first
        | rfl
        | exact decodeFromForceOnBelt_congr data data' flags flags' (cursor + 2) speed average_speed total_distance inclination ramp_angle positive_elevation negative_elevation instantaneous_pace average_pace total_energy energy_per_hour energy_per_minute heart_rate metabolic_equivalent elapsed_time (some (u16le b0 b1)) hlen hbytes (by omega) hfl

theorem decodeFromElapsedTime_congr (data data' : List ℕ)
    (flags flags' : TreadmillDataFlags)
    (cursor speed : ℕ) (average_speed : Option ℕ) (total_distance : Option ℕ) (inclination : Option ℤ) (ramp_angle : Option ℤ) (positive_elevation : Option ℕ) (negative_elevation : Option ℕ) (instantaneous_pace : Option ℕ) (average_pace : Option ℕ) (total_energy : Option ℕ) (energy_per_hour : Option ℕ) (energy_per_minute : Option ℕ) (heart_rate : Option ℕ) (metabolic_equivalent : Option ℕ)
    (hlen : data.length = data'.length)
    (hbytes : ∀ i, 2 ≤ i → data[i]? = data'[i]?)
    (hcur : 2 ≤ cursor)
    (hfl : FlagsAgree flags flags') :
    decodeFromElapsedTime data flags cursor speed average_speed total_distance inclination ramp_angle positive_elevation negative_elevation instantaneous_pace average_pace total_energy energy_per_hour energy_per_minute heart_rate metabolic_equivalent = decodeFromElapsedTime data' flags' cursor speed average_speed total_distance inclination ramp_angle positive_elevation negative_elevation instantaneous_pace average_pace total_energy energy_per_hour energy_per_minute heart_rate metabolic_equivalent := by
  cases hf : flags.elapsed_time with
  | false =>
    have hf2 : flags'.elapsed_time = false := by rw [← hfl.elapsed_time]; exact hf
    simp only [decodeFromElapsedTime, hf, hf2, Bool.false_eq_true, if_false]
    exact decodeFromRemainingTime_congr data data' flags flags' cursor speed average_speed total_distance inclination ramp_angle positive_elevation negative_elevation instantaneous_pace average_pace total_energy energy_per_hour energy_per_minute heart_rate metabolic_equivalent none hlen hbytes hcur hfl
  | true =>
    have hf2 : flags'.elapsed_time = true := by rw [← hfl.elapsed_time]; exact hf
    simp only [decodeFromElapsedTime, hf, hf2, if_true]
    rw [hlen]
    by_cases hg : data'.length < cursor + 2
    · simp [hg]
    · simp only [hg, if_false]
      rw [hbytes cursor (by omega), hbytes (cursor + 1) (by omega)]
      rcases data'[cursor]? with _ | b0 <;> rcases data'[cursor + 1]? with _ | b1 <;>
        first
        | rfl
        | exact decodeFromRemainingTime_congr data data' flags flags' (cursor + 2) speed average_speed total_distance inclination ramp_angle positive_elevation negative_elevation instantaneous_pace average_pace total_energy energy_per_hour energy_per_minute heart_rate metabolic_equivalent (some (u16le b0 b1)) hlen hbytes (by omega) hfl

theorem decodeFromMetabolicEquivalent_congr (data data' : List ℕ)
    (flags flags' : TreadmillDataFlags)
    (cursor speed : ℕ) (average_speed : Option ℕ) (total_distance : Option ℕ) (inclination : Option ℤ) (ramp_angle : Option ℤ) (positive_elevation : Option ℕ) (negative_elevation : Option ℕ) (instantaneous_pace : Option ℕ) (average_pace : Option ℕ) (total_energy : Option ℕ) (energy_per_hour : Option ℕ) (energy_per_minute : Option ℕ) (heart_rate : Option ℕ)
    (hlen : data.length = data'.length)
    (hbytes : ∀ i, 2 ≤ i → data[i]? = data'[i]?)
    (hcur : 2 ≤ cursor)
    (hfl : FlagsAgree flags flags') :
    decodeFromMetabolicEquivalent data flags cursor speed average_speed total_distance inclination ramp_angle positive_elevation negative_elevation instantaneous_pace average_pace total_energy energy_per_hour energy_per_minute heart_rate = decodeFromMetabolicEquivalent data' flags' cursor speed average_speed total_distance inclination ramp_angle positive_elevation negative_elevation instantaneous_pace average_pace total_energy energy_per_hour energy_per_minute heart_rate := by
  cases hf : flags.metabolic_equivalent with
  | false =>
    have hf2 : flags'.metabolic_equivalent = false := by rw [← hfl.metabolic_equivalent]; exact hf
    simp only [decodeFromMetabolicEquivalent, hf, hf2, Bool.false_eq_true, if_false]
    exact decodeFromElapsedTime_congr data data' flags flags' cursor speed average_speed total_distance inclination ramp_angle positive_elevation negative_elevation instantaneous_pace average_pace total_energy energy_per_hour energy_per_minute heart_rate none hlen hbytes hcur hfl
  | true =>
    have hf2 : flags'.metabolic_equivalent = true := by rw [← hfl.metabolic_equivalent]; exact hf
    simp only [decodeFromMetabolicEquivalent, hf, hf2, if_true]
    rw [hlen]
    by_cases hg : data'.length < cursor + 1
    · simp [hg]
    · simp only [hg, if_false]
      rw [hbytes cursor (by omega)]
      rcases data'[cursor]? with _ | b0 <;>
        first
        | rfl
        | exact decodeFromElapsedTime_congr data data' flags flags' (cursor + 1) speed average_speed total_distance inclination ramp_angle positive_elevation negative_elevation instantaneous_pace average_pace total_energy energy_per_hour energy_per_minute heart_rate (some b0) hlen hbytes (by omega) hfl

theorem decodeFromHeartRate_congr (data data' : List ℕ)
    (flags flags' : TreadmillDataFlags)
    (cursor speed : ℕ) (average_speed : Option ℕ) (total_distance : Option ℕ) (inclination : Option ℤ) (ramp_angle : Option ℤ) (positive_elevation : Option ℕ) (negative_elevation : Option ℕ) (instantaneous_pace : Option ℕ) (average_pace : Option ℕ) (total_energy : Option ℕ) (energy_per_hour : Option ℕ) (energy_per_minute : Option ℕ)
    (hlen : data.length = data'.length)
    (hbytes : ∀ i, 2 ≤ i → data[i]? = data'[i]?)
    (hcur : 2 ≤ cursor)
    (hfl : FlagsAgree flags flags') :
    decodeFromHeartRate data flags cursor speed average_speed total_distance inclination ramp_angle positive_elevation negative_elevation instantaneous_pace average_pace total_energy energy_per_hour energy_per_minute = decodeFromHeartRate data' flags' cursor speed average_speed total_distance inclination ramp_angle positive_elevation negative_elevation instantaneous_pace average_pace total_energy energy_per_hour energy_per_minute := by
  cases hf : flags.heart_rate with
  | false =>
    have hf2 : flags'.heart_rate = false := by rw [← hfl.heart_rate]; exact hf
    simp only [decodeFromHeartRate, hf, hf2, Bool.false_eq_true, if_false]
    exact decodeFromMetabolicEquivalent_congr data data' flags flags' cursor speed average_speed total_distance inclination ramp_angle positive_elevation negative_elevation instantaneous_pace average_pace total_energy energy_per_hour energy_per_minute none hlen hbytes hcur hfl
  | true =>
    have hf2 : flags'.heart_rate = true := by rw [← hfl.heart_rate]; exact hf
    simp only [decodeFromHeartRate, hf, hf2, if_true]
    rw [hlen]
    by_cases hg : data'.length < cursor + 1
    · simp [hg]
    · simp only [hg, if_false]
      rw [hbytes cursor (by omega)]
      rcases data'[cursor]? with _ | b0 <;>
        first
        | rfl
        | exact decodeFromMetabolicEquivalent_congr data data' flags flags' (cursor + 1) speed average_speed total_distance inclination ramp_angle positive_elevation negative_elevation instantaneous_pace average_pace total_energy energy_per_hour energy_per_minute (some b0) hlen hbytes (by omega) hfl

theorem decodeFromEnergy_congr (data data' : List ℕ)
    (flags flags' : TreadmillDataFlags)
    (cursor speed : ℕ) (average_speed : Option ℕ) (total_distance : Option ℕ) (inclination : Option ℤ) (ramp_angle : Option ℤ) (positive_elevation : Option ℕ) (negative_elevation : Option ℕ) (instantaneous_pace : Option ℕ) (average_pace : Option ℕ)
    (hlen : data.length = data'.length)
    (hbytes : ∀ i, 2 ≤ i → data[i]? = data'[i]?)
    (hcur : 2 ≤ cursor)
    (hfl : FlagsAgree flags flags') :
    decodeFromEnergy data flags cursor speed average_speed total_distance inclination ramp_angle positive_elevation negative_elevation instantaneous_pace average_pace = decodeFromEnergy data' flags' cursor speed average_speed total_distance inclination ramp_angle positive_elevation negative_elevation instantaneous_pace average_pace := by
  cases hf : flags.energy with
  | false =>
    have hf2 : flags'.energy = false := by rw [← hfl.energy]; exact hf
    simp only [decodeFromEnergy, hf, hf2, Bool.false_eq_true, if_false]
    exact decodeFromHeartRate_congr data data' flags flags' cursor speed average_speed total_distance inclination ramp_angle positive_elevation negative_elevation instantaneous_pace average_pace none none none hlen hbytes hcur hfl
  | true =>
    have hf2 : flags'.energy = true := by rw [← hfl.energy]; exact hf
    simp only [decodeFromEnergy, hf, hf2, if_true]
    rw [hlen]
    by_cases hg : data'.length < cursor + 5
    · simp [hg]
    · simp only [hg, if_false]
      rw [hbytes cursor (by omega), hbytes (cursor + 1) (by omega), hbytes (cursor + 2) (by omega), hbytes (cursor + 3) (by omega), hbytes (cursor + 4) (by omega)]
      rcases data'[cursor]? with _ | b0 <;> rcases data'[cursor + 1]? with _ | b1 <;> rcases data'[cursor + 2]? with _ | b2 <;> rcases data'[cursor + 3]? with _ | b3 <;> rcases data'[cursor + 4]? with _ | b4 <;>
        first
        | rfl
        | exact decodeFromHeartRate_congr data data' flags flags' (cursor + 5) speed average_speed total_distance inclination ramp_angle positive_elevation negative_elevation instantaneous_pace average_pace (some (u16le b0 b1)) (some (u16le b2 b3)) (some b4) hlen hbytes (by omega) hfl

theorem decodeFromAveragePace_congr (data data' : List ℕ)
    (flags flags' : TreadmillDataFlags)
    (cursor speed : ℕ) (average_speed : Option ℕ) (total_distance : Option ℕ) (inclination : Option ℤ) (ramp_angle : Option ℤ) (positive_elevation : Option ℕ) (negative_elevation : Option ℕ) (instantaneous_pace : Option ℕ)
    (hlen : data.length = data'.length)
    (hbytes : ∀ i, 2 ≤ i → data[i]? = data'[i]?)
    (hcur : 2 ≤ cursor)
    (hfl : FlagsAgree flags flags') :
    decodeFromAveragePace data flags cursor speed average_speed total_distance inclination ramp_angle positive_elevation negative_elevation instantaneous_pace = decodeFromAveragePace data' flags' cursor speed average_speed total_distance inclination ramp_angle positive_elevation negative_elevation instantaneous_pace := by
  cases hf : flags.average_pace with
  | false =>
    have hf2 : flags'.average_pace = false := by rw [← hfl.average_pace]; exact hf
    simp only [decodeFromAveragePace, hf, hf2, Bool.false_eq_true, if_false]
    exact decodeFromEnergy_congr data data' flags flags' cursor speed average_speed total_distance inclination ramp_angle positive_elevation negative_elevation instantaneous_pace none hlen hbytes hcur hfl
  | true =>
    have hf2 : flags'.average_pace = true := by rw [← hfl.average_pace]; exact hf
    simp only [decodeFromAveragePace, hf, hf2, if_true]
    rw [hlen]
    by_cases hg : data'.length < cursor + 2
    · simp [hg]
    · simp only [hg, if_false]
      rw [hbytes cursor (by omega), hbytes (cursor + 1) (by omega)]
      rcases data'[cursor]? with _ | b0 <;> rcases data'[cursor + 1]? with _ | b1 <;>
        first
        | rfl
        | exact decodeFromEnergy_congr data data' flags flags' (cursor + 2) speed average_speed total_distance inclination ramp_angle positive_elevation negative_elevation instantaneous_pace (some (u16le b0 b1)) hlen hbytes (by omega) hfl

theorem decodeFromInstantaneousPace_congr (data data' : List ℕ)
    (flags flags' : TreadmillDataFlags)
    (cursor speed : ℕ) (average_speed : Option ℕ) (total_distance : Option ℕ) (inclination : Option ℤ) (ramp_angle : Option ℤ) (positive_elevation : Option ℕ) (negative_elevation : Option ℕ)
    (hlen : data.length = data'.length)
    (hbytes : ∀ i, 2 ≤ i → data[i]? = data'[i]?)
    (hcur : 2 ≤ cursor)
    (hfl : FlagsAgree flags flags') :
    decodeFromInstantaneousPace data flags cursor speed average_speed total_distance inclination ramp_angle positive_elevation negative_elevation = decodeFromInstantaneousPace data' flags' cursor speed average_speed total_distance inclination ramp_angle positive_elevation negative_elevation := by
  cases hf : flags.instantaneous_pace with
  | false =>
    have hf2 : flags'.instantaneous_pace = false := by rw [← hfl.instantaneous_pace]; exact hf
    simp only [decodeFromInstantaneousPace, hf, hf2, Bool.false_eq_true, if_false]
    exact decodeFromAveragePace_congr data data' flags flags' cursor speed average_speed total_distance inclination ramp_angle positive_elevation negative_elevation none hlen hbytes hcur hfl
  | true =>
    have hf2 : flags'.instantaneous_pace = true := by rw [← hfl.instantaneous_pace]; exact hf
    simp only [decodeFromInstantaneousPace, hf, hf2, if_true]
    rw [hlen]
    by_cases hg : data'.length < cursor + 2
    · simp [hg]
    · simp only [hg, if_false]
      rw [hbytes cursor (by omega), hbytes (cursor + 1) (by omega)]
      rcases data'[cursor]? with _ | b0 <;> rcases data'[cursor + 1]? with _ | b1 <;>
        first
        | rfl
        | exact decodeFromAveragePace_congr data data' flags flags' (cursor + 2) speed average_speed total_distance inclination ramp_angle positive_elevation negative_elevation (some (u16le b0 b1)) hlen hbytes (by omega) hfl

theorem decodeFromElevationGain_congr (data data' : List ℕ)
    (flags flags' : TreadmillDataFlags)
    (cursor speed : ℕ) (average_speed : Option ℕ) (total_distance : Option ℕ) (inclination : Option ℤ) (ramp_angle : Option ℤ)
    (hlen : data.length = data'.length)
    (hbytes : ∀ i, 2 ≤ i → data[i]? = data'[i]?)
    (hcur : 2 ≤ cursor)
    (hfl : FlagsAgree flags flags') :
    decodeFromElevationGain data flags cursor speed average_speed total_distance inclination ramp_angle = decodeFromElevationGain data' flags' cursor speed average_speed total_distance inclination ramp_angle := by
  cases hf : flags.elevation_gain with
  | false =>
    have hf2 : flags'.elevation_gain = false := by rw [← hfl.elevation_gain]; exact hf
    simp only [decodeFromElevationGain, hf, hf2, Bool.false_eq_true, if_false]
    exact decodeFromInstantaneousPace_congr data data' flags flags' cursor speed average_speed total_distance inclination ramp_angle none none hlen hbytes hcur hfl
  | true =>
    have hf2 : flags'.elevation_gain = true := by rw [← hfl.elevation_gain]; exact hf
    simp only [decodeFromElevationGain, hf, hf2, if_true]
    rw [hlen]
    by_cases hg : data'.length < cursor + 4
    · simp [hg]
    · simp only [hg, if_false]
      rw [hbytes cursor (by omega), hbytes (cursor + 1) (by omega), hbytes (cursor + 2) (by omega), hbytes (cursor + 3) (by omega)]
      rcases data'[cursor]? with _ | b0 <;> rcases data'[cursor + 1]? with _ | b1 <;> rcases data'[cursor + 2]? with _ | b2 <;> rcases data'[cursor + 3]? with _ | b3 <;>
        first
        | rfl
        | exact decodeFromInstantaneousPace_congr data data' flags flags' (cursor + 4) speed average_speed total_distance inclination ramp_angle (some (u16le b0 b1)) (some (u16le b2 b3)) hlen hbytes (by omega) hfl

theorem decodeFromInclination_congr (data data' : List ℕ)
    (flags flags' : TreadmillDataFlags)
    (cursor speed : ℕ) (average_speed : Option ℕ) (total_distance : Option ℕ)
    (hlen : data.length = data'.length)
    (hbytes : ∀ i, 2 ≤ i → data[i]? = data'[i]?)
    (hcur : 2 ≤ cursor)
    (hfl : FlagsAgree flags flags') :
    decodeFromInclination data flags cursor speed average_speed total_distance = decodeFromInclination data' flags' cursor speed average_speed total_distance := by
  cases hf : flags.inclination_and_ramp_angle with
  | false =>
    have hf2 : flags'.inclination_and_ramp_angle = false := by rw [← hfl.inclination_and_ramp_angle]; exact hf
    simp only [decodeFromInclination, hf, hf2, Bool.false_eq_true, if_false]
    exact decodeFromElevationGain_congr data data' flags flags' cursor speed average_speed total_distance none none hlen hbytes hcur hfl
  | true =>
    have hf2 : flags'.inclination_and_ramp_angle = true := by rw [← hfl.inclination_and_ramp_angle]; exact hf
    simp only [decodeFromInclination, hf, hf2, if_true]
    rw [hlen]
    by_cases hg : data'.length < cursor + 4
    · simp [hg]
    · simp only [hg, if_false]
      rw [hbytes cursor (by omega), hbytes (cursor + 1) (by omega), hbytes (cursor + 2) (by omega), hbytes (cursor + 3) (by omega)]
      rcases data'[cursor]? with _ | b0 <;> rcases data'[cursor + 1]? with _ | b1 <;> rcases data'[cursor + 2]? with _ | b2 <;> rcases data'[cursor + 3]? with _ | b3 <;>
        first
        | rfl
        | exact decodeFromElevationGain_congr data data' flags flags' (cursor + 4) speed average_speed total_distance (some (i16le b0 b1)) (some (i16le b2 b3)) hlen hbytes (by omega) hfl

theorem decodeFromTotalDistance_congr (data data' : List ℕ)
    (flags flags' : TreadmillDataFlags)
    (cursor speed : ℕ) (average_speed : Option ℕ)
    (hlen : data.length = data'.length)
    (hbytes : ∀ i, 2 ≤ i → data[i]? = data'[i]?)
    (hcur : 2 ≤ cursor)
    (hfl : FlagsAgree flags flags') :
    decodeFromTotalDistance data flags cursor speed average_speed = decodeFromTotalDistance data' flags' cursor speed average_speed := by
  cases hf : flags.total_distance with
  | false =>
    have hf2 : flags'.total_distance = false := by rw [← hfl.total_distance]; exact hf
    simp only [decodeFromTotalDistance, hf, hf2, Bool.false_eq_true, if_false]
    exact decodeFromInclination_congr data data' flags flags' cursor speed average_speed none hlen hbytes hcur hfl
  | true =>
    have hf2 : flags'.total_distance = true := by rw [← hfl.total_distance]; exact hf
    simp only [decodeFromTotalDistance, hf, hf2, if_true]
    rw [hlen]
    by_cases hg : data'.length < cursor + 3
    · simp [hg]
    · simp only [hg, if_false]
      rw [hbytes cursor (by omega), hbytes (cursor + 1) (by omega), hbytes (cursor + 2) (by omega)]
      rcases data'[cursor]? with _ | b0 <;> rcases data'[cursor + 1]? with _ | b1 <;> rcases data'[cursor + 2]? with _ | b2 <;>
        first
        | rfl
        | exact decodeFromInclination_congr data data' flags flags' (cursor + 3) speed average_speed (some (u24le b0 b1 b2)) hlen hbytes (by omega) hfl

theorem decodeFromAverageSpeed_congr (data data' : List ℕ)
    (flags flags' : TreadmillDataFlags)
    (cursor speed : ℕ)
    (hlen : data.length = data'.length)
    (hbytes : ∀ i, 2 ≤ i → data[i]? = data'[i]?)
    (hcur : 2 ≤ cursor)
    (hfl : FlagsAgree flags flags') :
    decodeFromAverageSpeed data flags cursor speed = decodeFromAverageSpeed data' flags' cursor speed := by
  cases hf : flags.average_speed with
  | false =>
    have hf2 : flags'.average_speed = false := by rw [← hfl.average_speed]; exact hf
    simp only [decodeFromAverageSpeed, hf, hf2, Bool.false_eq_true, if_false]
    exact decodeFromTotalDistance_congr data data' flags flags' cursor speed none hlen hbytes hcur hfl
  | true =>
    have hf2 : flags'.average_speed = true := by rw [← hfl.average_speed]; exact hf
    simp only [decodeFromAverageSpeed, hf, hf2, if_true]
    rw [hlen]
    by_cases hg : data'.length < cursor + 2
    · simp [hg]
    · simp only [hg, if_false]
      rw [hbytes cursor (by omega), hbytes (cursor + 1) (by omega)]
      rcases data'[cursor]? with _ | b0 <;> rcases data'[cursor + 1]? with _ | b1 <;>
        first
        | rfl
        | exact decodeFromTotalDistance_congr data data' flags flags' (cursor + 2) speed (some (u16le b0 b1)) hlen hbytes (by omega) hfl

theorem walkFails_iff (gs : List (Bool × ℕ)) (len : ℕ) :
    ∀ c, c ≤ len → (walkFails len c gs = true ↔ len < c + sumSizes gs) := by
  induction gs with
  | nil => intro c hc; simp [walkFails, sumSizes]; omega
  | cons p rest ih =>
    intro c hc
    obtain ⟨f, s⟩ := p
    cases f with
    | false =>
      simpa [walkFails, sumSizes, sizeIf] using ih c hc
    | true =>
      by_cases hg : len < c + s
      · simp [walkFails, hg, sumSizes, sizeIf]; omega
      · have := ih (c + s) (by omega)
        simp only [walkFails, if_true, hg, if_false] at *
        simp [this, sumSizes, sizeIf] at *
        omega

theorem sumSizes_groupSizes (fl : TreadmillDataFlags) :
    sumSizes (groupSizes fl) = restAverageSpeed fl := by
  simp [sumSizes, groupSizes, restAverageSpeed, restTotalDistance,
    restInclination, restElevationGain, restInstantaneousPace,
    restAveragePace, restEnergy, restHeartRate, restMetabolicEquivalent,
    restElapsedTime, restRemainingTime, restForceOnBelt]

theorem decode_eq_tail (data : List ℕ) (h4 : 4 ≤ data.length) :
    decode_treadmill_data data =
      decodeFromAverageSpeed data (flagsOf data) 4
        (u16le (data.getD 2 0) (data.getD 3 0)) := by
  have h0 : 0 < data.length := by omega
  have h1 : 1 < data.length := by omega
  have h2 : 2 < data.length := by omega
  have h3 : 3 < data.length := by omega
  rw [flagsOf, List.getD_eq_getElem data 0 h0, List.getD_eq_getElem data 0 h1,
    List.getD_eq_getElem data 0 h2, List.getD_eq_getElem data 0 h3]
  simp [decode_treadmill_data, Nat.not_lt.mpr h4,
    List.getElem?_eq_getElem h0, List.getElem?_eq_getElem h1,
    List.getElem?_eq_getElem h2, List.getElem?_eq_getElem h3]

/-- Claim C1: for every input byte buffer, decode fails if and only if the
buffer is too short - length < 4, or, walking the flagged optional groups
in the fixed order, some set flag's declared byte count exceeds the bytes
remaining at the cursor - and the failure is always `NotEnoughData` with no
partial frame ever returned; otherwise decode returns Ok with a full
frame. -/
theorem claim_C1 (data : List ℕ) :
    (decode_treadmill_data data = .error .notEnoughData ↔
      (data.length < 4 ∨
        walkFails data.length 4 (groupSizes (flagsOf data)) = true)) ∧
    ((4 ≤ data.length ∧
        walkFails data.length 4 (groupSizes (flagsOf data)) = false) →
      ∃ fr, decode_treadmill_data data = .ok fr) ∧
    (∀ e, decode_treadmill_data data = .error e → e = .notEnoughData) := by
  by_cases hlen : data.length < 4
  · refine ⟨?_, ?_, ?_⟩
    · simp [decode_treadmill_data, hlen]
    · intro h; omega
    · intro e he
      simp [decode_treadmill_data, hlen] at he
      exact he.symm
  · have h4 : 4 ≤ data.length := by omega
    have hwalk := walkFails_iff (groupSizes (flagsOf data)) data.length 4 h4
    rw [sumSizes_groupSizes] at hwalk
    have hspec := decodeFromAverageSpeed_spec data (flagsOf data) 4
      (u16le (data.getD 2 0) (data.getD 3 0)) h4
    rw [decode_eq_tail data h4]
    by_cases hw : data.length < 4 + restAverageSpeed (flagsOf data)
    · have herr := hspec.1 hw
      refine ⟨?_, ?_, ?_⟩
      · rw [herr]; simp [hwalk]; omega
      · intro hcon
        rw [hwalk.2 hw] at hcon
        simp at hcon
      · intro e he; rw [herr] at he
        exact (Except.error.inj he).symm
    · obtain ⟨fr, e, -⟩ := hspec.2 (by omega)
      refine ⟨?_, fun _ => ⟨fr, e⟩, ?_⟩
      · rw [e]
        constructor
        · intro h; exact absurd h (by simp)
        · intro h
          rcases h with h | h
          · omega
          · rw [hwalk] at h; omega
      · intro er he; rw [e] at he; exact absurd he (by simp)

/-- Claim C1 witness: a 3-byte buffer fails with NotEnoughData, and an
8-byte buffer whose average_speed flag requires more than the available
bytes also fails. -/
theorem claim_C1_witness :
    decode_treadmill_data [1, 0, 0] = .error .notEnoughData ∧
    decode_treadmill_data [2, 0, 0, 0, 5] = .error .notEnoughData ∧
    (∃ fr, decode_treadmill_data [2, 0, 0, 0, 5, 6] = .ok fr) :=
  ⟨(claim_C1 [1, 0, 0]).1.mpr (by decide),
   (claim_C1 [2, 0, 0, 0, 5]).1.mpr (by decide),
   (claim_C1 [2, 0, 0, 0, 5, 6]).2.1 (by decide)⟩

/-- Claim C2: whenever decode succeeds, each of the 17 optional fields is
populated iff its governing flag bit in the first two bytes is set; and a
4-byte buffer with both flag bytes zero decodes to a frame with only the
mandatory speed populated. -/
theorem claim_C2 :
    (∀ data fr, decode_treadmill_data data = .ok fr →
      fieldPresence fr = flagPresence (flagsOf data)) ∧
    (∀ b2 b3, decode_treadmill_data [0, 0, b2, b3] =
      .ok ⟨u16le b2 b3, none, none, none, none, none, none, none, none,
        none, none, none, none, none, none, none, none, none⟩) := by
  constructor
  · intro data fr hok
    by_cases hlen : data.length < 4
    · simp [decode_treadmill_data, hlen] at hok
    · have h4 : 4 ≤ data.length := by omega
      rw [decode_eq_tail data h4] at hok
      have hspec := decodeFromAverageSpeed_spec data (flagsOf data) 4
        (u16le (data.getD 2 0) (data.getD 3 0)) h4
      by_cases hw : data.length < 4 + restAverageSpeed (flagsOf data)
      · rw [hspec.1 hw] at hok; exact absurd hok (by simp)
      · obtain ⟨fr2, e, -, c1, c2, c3, c4, c5, c6, c7, c8, c9, c10, c11,
          c12, c13, c14, c15, c16, c17⟩ := hspec.2 (by omega)
        rw [e] at hok
        have : fr2 = fr := Except.ok.inj hok
        subst this
        simp [fieldPresence, flagPresence, c1, c2, c3, c4, c5, c6, c7, c8,
          c9, c10, c11, c12, c13, c14, c15, c16, c17]
  · intro b2 b3
    simp [decode_treadmill_data, decodeFromAverageSpeed,
      decodeFromTotalDistance, decodeFromInclination, decodeFromElevationGain,
      decodeFromInstantaneousPace, decodeFromAveragePace, decodeFromEnergy,
      decodeFromHeartRate, decodeFromMetabolicEquivalent,
      decodeFromElapsedTime, decodeFromRemainingTime, decodeFromForceOnBelt,
      decodeFlags, u16le]

/-- Claim C2 witness: a concrete successful decode with the average_speed
flag set has exactly that field present, and the all-zero-flag 4-byte
buffer decodes to the bare frame. -/
theorem claim_C2_witness :
    fieldPresence ⟨0, some 1541, none, none, none, none, none, none, none,
        none, none, none, none, none, none, none, none, none⟩ =
      flagPresence (flagsOf [2, 0, 0, 0, 5, 6]) ∧
    decode_treadmill_data [0, 0, 7, 1] =
      .ok ⟨u16le 7 1, none, none, none, none, none, none, none, none,
        none, none, none, none, none, none, none, none, none⟩ :=
  ⟨claim_C2.1 [2, 0, 0, 0, 5, 6]
    ⟨0, some 1541, none, none, none, none, none, none, none, none, none,
      none, none, none, none, none, none, none⟩ rfl,
   claim_C2.2 7 1⟩

/-- Claim C9: decode is total and in-bounds: it never evaluates an
out-of-bounds byte access (modelled by `DecodeError.indexOutOfBounds`,
which is never returned), and always produces either a full frame or
`NotEnoughData`. -/
theorem claim_C9 (data : List ℕ) :
    decode_treadmill_data data ≠ .error .indexOutOfBounds ∧
    ((∃ fr, decode_treadmill_data data = .ok fr) ∨
      decode_treadmill_data data = .error .notEnoughData) := by
  by_cases hlen : data.length < 4
  · constructor
    · simp [decode_treadmill_data, hlen]
    · right; simp [decode_treadmill_data, hlen]
  · have h4 : 4 ≤ data.length := by omega
    rw [decode_eq_tail data h4]
    have hspec := decodeFromAverageSpeed_spec data (flagsOf data) 4
      (u16le (data.getD 2 0) (data.getD 3 0)) h4
    by_cases hw : data.length < 4 + restAverageSpeed (flagsOf data)
    · rw [hspec.1 hw]
      exact ⟨by simp, Or.inr rfl⟩
    · obtain ⟨fr, e, -⟩ := hspec.2 (by omega)
      rw [e]
      exact ⟨by simp, Or.inl ⟨fr, rfl⟩⟩

/-- The flag bit test written with a mask equals `Nat.testBit`. -/
theorem and_two_pow_bne (n k : ℕ) : (n &&& 2 ^ k != 0) = n.testBit k := by
  rw [Nat.and_two_pow]
  cases h : n.testBit k
  · simp
  · have hp : (0 : ℕ) < 2 ^ k := Nat.pos_pow_of_pos k (by norm_num)
    simp only [Bool.toNat_true, one_mul, bne_iff_ne, ne_eq]
    omega

/-- Variant of `and_two_pow_bne` taking the mask as a separate literal. -/
theorem bne_and_eq_testBit (n m k : ℕ) (hm : m = 2 ^ k) :
    (n &&& m != 0) = n.testBit k := by
  subst hm; exact and_two_pow_bne n k

/-- Claim C10: the decoded result never depends on the more_data bit (bit
0 of byte 0) or the unused bits 5-7 of byte 1: buffers of equal length
agreeing everywhere else decode identically. -/
theorem claim_C10 (data data' : List ℕ)
    (hlen : data.length = data'.length)
    (hbytes : ∀ i, 2 ≤ i → data[i]? = data'[i]?)
    (hb0 : ∀ k, 1 ≤ k → (data.getD 0 0).testBit k = (data'.getD 0 0).testBit k)
    (hb1 : ∀ k, k ≤ 4 → (data.getD 1 0).testBit k = (data'.getD 1 0).testBit k) :
    decode_treadmill_data data = decode_treadmill_data data' := by
  by_cases h4 : data.length < 4
  · have h4' : data'.length < 4 := by omega
    simp [decode_treadmill_data, h4, h4']
  · have h4a : 4 ≤ data.length := by omega
    have h4b : 4 ≤ data'.length := by omega
    have h2 : 2 < data.length := by omega
    have h3 : 3 < data.length := by omega
    have h2' : 2 < data'.length := by omega
    have h3' : 3 < data'.length := by omega
    have e2 : data.getD 2 0 = data'.getD 2 0 := by
      rw [List.getD_eq_getElem data 0 h2, List.getD_eq_getElem data' 0 h2']
      have := hbytes 2 (by omega)
      rw [List.getElem?_eq_getElem h2, List.getElem?_eq_getElem h2'] at this
      exact Option.some.inj this
    have e3 : data.getD 3 0 = data'.getD 3 0 := by
      rw [List.getD_eq_getElem data 0 h3, List.getD_eq_getElem data' 0 h3']
      have := hbytes 3 (by omega)
      rw [List.getElem?_eq_getElem h3, List.getElem?_eq_getElem h3'] at this
      exact Option.some.inj this
    have hagree : FlagsAgree (flagsOf data) (flagsOf data') := by
      refine ⟨?_, ?_, ?_, ?_, ?_, ?_, ?_, ?_, ?_, ?_, ?_, ?_⟩ <;>
        simp only [flagsOf, decodeFlags]
      · rw [bne_and_eq_testBit _ _ 1 (by norm_num), bne_and_eq_testBit _ _ 1 (by norm_num), hb0 1 (by omega)]
      · rw [bne_and_eq_testBit _ _ 2 (by norm_num), bne_and_eq_testBit _ _ 2 (by norm_num), hb0 2 (by omega)]
      · rw [bne_and_eq_testBit _ _ 3 (by norm_num), bne_and_eq_testBit _ _ 3 (by norm_num), hb0 3 (by omega)]
      · rw [bne_and_eq_testBit _ _ 4 (by norm_num), bne_and_eq_testBit _ _ 4 (by norm_num), hb0 4 (by omega)]
      · rw [bne_and_eq_testBit _ _ 5 (by norm_num), bne_and_eq_testBit _ _ 5 (by norm_num), hb0 5 (by omega)]
      · rw [bne_and_eq_testBit _ _ 6 (by norm_num), bne_and_eq_testBit _ _ 6 (by norm_num), hb0 6 (by omega)]
      · rw [bne_and_eq_testBit _ _ 7 (by norm_num), bne_and_eq_testBit _ _ 7 (by norm_num), hb0 7 (by omega)]
      · rw [bne_and_eq_testBit _ _ 0 (by norm_num), bne_and_eq_testBit _ _ 0 (by norm_num), hb1 0 (by omega)]
      · rw [bne_and_eq_testBit _ _ 1 (by norm_num), bne_and_eq_testBit _ _ 1 (by norm_num), hb1 1 (by omega)]
      · rw [bne_and_eq_testBit _ _ 2 (by norm_num), bne_and_eq_testBit _ _ 2 (by norm_num), hb1 2 (by omega)]
      · rw [bne_and_eq_testBit _ _ 3 (by norm_num), bne_and_eq_testBit _ _ 3 (by norm_num), hb1 3 (by omega)]
      · rw [bne_and_eq_testBit _ _ 4 (by norm_num), bne_and_eq_testBit _ _ 4 (by norm_num), hb1 4 (by omega)]
    rw [decode_eq_tail data h4a, decode_eq_tail data' h4b, e2, e3]
    exact decodeFromAverageSpeed_congr data data' (flagsOf data)
      (flagsOf data') 4 (u16le (data'.getD 2 0) (data'.getD 3 0)) hlen
      hbytes (by omega) hagree

/-- Claim C10 witness: flipping the more_data bit and setting the three
unused bits of the second flag byte leaves the decoded result unchanged. -/
theorem claim_C10_witness :
    decode_treadmill_data [1, 224, 7, 1] = decode_treadmill_data [0, 0, 7, 1] :=
  claim_C10 [1, 224, 7, 1] [0, 0, 7, 1] rfl
    (fun i hi => by
      match i, hi with
      | 2, _ => rfl
      | 3, _ => rfl
      | (n + 4), _ =>
        rw [List.getElem?_eq_none (by simp), List.getElem?_eq_none (by simp)])
    (fun k hk => by
      have e1 : [1, 224, 7, 1].getD 0 0 = 2 ^ 0 := rfl
      have e0 : [0, 0, 7, 1].getD 0 0 = 0 := rfl
      rw [e1, e0, Nat.zero_testBit, Nat.testBit_two_pow_of_ne (by omega)])
    (fun k hk => by
      have e1 : [1, 224, 7, 1].getD 1 0 = 224 := rfl
      have e0 : [0, 0, 7, 1].getD 1 0 = 0 := rfl
      rw [e1, e0]
      interval_cases k <;> decide)

theorem totalDistance_value (data : List ℕ) (fl : TreadmillDataFlags)
    (cursor speed : ℕ) (aspd : Option ℕ) (fr : TreadmillData)
    (_hc : cursor ≤ data.length)
    (hfd : fl.total_distance = true)
    (hok : decodeFromTotalDistance data fl cursor speed aspd = .ok fr) :
    fr.total_distance = some (u24le (data.getD cursor 0)
      (data.getD (cursor + 1) 0) (data.getD (cursor + 2) 0)) := by
  by_cases hg : data.length < cursor + 3
  · rw [decodeFromTotalDistance] at hok
    simp [hfd, hg] at hok
  · have h0 : cursor < data.length := by omega
    have h1 : cursor + 1 < data.length := by omega
    have h2 : cursor + 2 < data.length := by omega
    rw [decodeFromTotalDistance] at hok
    simp only [hfd, if_true, hg, if_false, List.getElem?_eq_getElem h0,
      List.getElem?_eq_getElem h1, List.getElem?_eq_getElem h2] at hok
    have hspec := decodeFromInclination_spec data fl (cursor + 3) speed aspd
      (some (u24le data[cursor] data[cursor + 1] data[cursor + 2])) (by omega)
    by_cases hw : data.length < cursor + 3 + restInclination fl
    · rw [hspec.1 hw] at hok
      exact absurd hok (by simp)
    · obtain ⟨fr2, e, -, -, hp1, -, -, -, -, -, -, -, -, -, -, -, -, -, -,
        -⟩ := hspec.2 (by omega)
      rw [e] at hok
      have hfr : fr2 = fr := Except.ok.inj hok
      subst hfr
      rw [List.getD_eq_getElem data 0 h0, List.getD_eq_getElem data 0 h1,
        List.getD_eq_getElem data 0 h2]
      exact hp1

/-- Claim C5: on every successful decode with the total_distance flag
(byte 0, bit 2) set, the total_distance field is the 24-bit little-endian
unsigned value of the 3 bytes consumed at the cursor position of that
group. -/
theorem claim_C5 (data : List ℕ) (fr : TreadmillData)
    (hok : decode_treadmill_data data = .ok fr)
    (hflag : data.getD 0 0 &&& 0b00000100 ≠ 0) :
    fr.total_distance = some (u24le (data.getD (tdOffset data) 0)
      (data.getD (tdOffset data + 1) 0) (data.getD (tdOffset data + 2) 0)) := by
  by_cases hlen : data.length < 4
  · simp [decode_treadmill_data, hlen] at hok
  · have h4 : 4 ≤ data.length := by omega
    rw [decode_eq_tail data h4] at hok
    have hfd : (flagsOf data).total_distance = true := by
      simp only [flagsOf, decodeFlags, bne_iff_ne, ne_eq]
      exact hflag
    cases hfa : (flagsOf data).average_speed with
    | false =>
      have ht : tdOffset data = 4 := by
        have hb : (data.getD 0 0 &&& 0b00000010 != 0) = false := hfa
        unfold tdOffset
        rw [hb]
        rfl
      rw [decodeFromAverageSpeed] at hok
      simp only [hfa, Bool.false_eq_true, if_false] at hok
      rw [ht]
      exact totalDistance_value data (flagsOf data) 4 _ none fr h4 hfd hok
    | true =>
      have ht : tdOffset data = 6 := by
        have hb : (data.getD 0 0 &&& 0b00000010 != 0) = true := hfa
        unfold tdOffset
        rw [hb]
        rfl
      rw [decodeFromAverageSpeed] at hok
      simp only [hfa, if_true] at hok
      by_cases hg : data.length < 4 + 2
      · simp [hg] at hok
      · have h0 : 4 < data.length := by omega
        have h1 : 5 < data.length := by omega
        simp only [hg, if_false, List.getElem?_eq_getElem h0,
          List.getElem?_eq_getElem h1] at hok
        rw [ht]
        exact totalDistance_value data (flagsOf data) 6 _ _ fr (by omega) hfd hok

/-- Claim C5 witness: buffer with average_speed and total_distance flags
set; the three bytes at offset 6 yield 1 + 256*2 + 65536*3. -/
theorem claim_C5_witness :
    (⟨0, some 25443, some 197121, none, none, none, none, none, none,
      none, none, none, none, none, none, none, none, none⟩ :
        TreadmillData).total_distance = some (u24le 1 2 3) :=
  claim_C5 [6, 0, 0, 0, 99, 99, 1, 2, 3] _ rfl (by decide)

/-- Claim C6: the command encoder is total (it yields a byte list on every
command; no variant fails), and SetTargetSpeed encodes as opcode 0x02
followed by the 16-bit speed in little-endian order; in particular
encode(SetTargetSpeed(1234)) = [0x02, 0xD2, 0x04]. -/
theorem claim_C6 :
    (∀ c, treadmill_command_to_message c ≠ []) ∧
    (∀ s, s < 2 ^ 16 →
      treadmill_command_to_message (.setTargetSpeed s) =
        [0x02, s % 256, s / 256]) ∧
    treadmill_command_to_message (.setTargetSpeed 1234) =
      [0x02, 0xD2, 0x04] := by
  refine ⟨?_, ?_, by decide⟩
  · intro c
    cases c <;> simp [treadmill_command_to_message]
  · intro s hs
    simp only [treadmill_command_to_message, List.cons.injEq, and_true,
      true_and]
    omega

/-- Claim C6 witness. -/
theorem claim_C6_witness :
    treadmill_command_to_message (.setTargetSpeed 1234) =
      [0x02, 1234 % 256, 1234 / 256] :=
  claim_C6.2.1 1234 (by norm_num)

/-- Claim C7: SetTargetedDistance encodes as opcode 0x0C followed by the
low 3 bytes of the 32-bit distance in little-endian order, the high byte
being discarded, so inputs differing only in the high byte encode
identically. -/
theorem claim_C7 :
    (∀ d, d < 2 ^ 32 →
      treadmill_command_to_message (.setTargetedDistance d) =
        [0x0C, d % 256, d / 256 % 256, d / 65536 % 256]) ∧
    (∀ d d', d % 2 ^ 24 = d' % 2 ^ 24 →
      treadmill_command_to_message (.setTargetedDistance d) =
        treadmill_command_to_message (.setTargetedDistance d')) := by
  constructor
  · intro d hd; rfl
  · intro d d' h
    simp only [treadmill_command_to_message, List.cons.injEq, and_true,
      true_and]
    refine ⟨?_, ?_, ?_⟩ <;> omega

/-- Claim C7 witness: 2^24 + 5 and 5 differ only above the low 3 bytes and
encode identically. -/
theorem claim_C7_witness :
    treadmill_command_to_message (.setTargetedDistance 16777215) =
      [0x0C, 16777215 % 256, 16777215 / 256 % 256, 16777215 / 65536 % 256] ∧
    treadmill_command_to_message (.setTargetedDistance (2 ^ 24 + 5)) =
      treadmill_command_to_message (.setTargetedDistance 5) :=
  ⟨claim_C7.1 16777215 (by norm_num), claim_C7.2 (2 ^ 24 + 5) 5 (by norm_num)⟩

theorem nbitsAux_zero (fuel : ℕ) : nbitsAux fuel 0 = 0 := by
  cases fuel <;> simp [nbitsAux]

theorem nbitsAux_spec (fuel : ℕ) :
    ∀ n, n ≤ fuel → n ≠ 0 →
      ∃ k, nbitsAux fuel n = k + 1 ∧ 2 ^ k ≤ n ∧ n < 2 ^ (k + 1) := by
  induction fuel with
  | zero => intro n h1 h2; omega
  | succ fuel ih =>
    intro n h1 h2
    by_cases hn : n = 1
    · subst hn
      exact ⟨0, by simp [nbitsAux, nbitsAux_zero], by norm_num, by norm_num⟩
    · have hd : n / 2 ≠ 0 := by omega
      have hdf : n / 2 ≤ fuel := by omega
      obtain ⟨k, hk, hlo, hhi⟩ := ih (n / 2) hdf hd
      refine ⟨k + 1, ?_, ?_, ?_⟩
      · simp [nbitsAux, h2, hk]
      · have : 2 ^ (k + 1) = 2 * 2 ^ k := by ring
        omega
      · have : 2 ^ (k + 2) = 2 * 2 ^ (k + 1) := by ring
        omega

theorem nbits_spec (n : ℕ) (hn : n ≠ 0) :
    2 ^ nbits n ≤ 2 * n ∧ n < 2 ^ nbits n := by
  obtain ⟨k, hk, hlo, hhi⟩ := nbitsAux_spec n n le_rfl hn
  rw [nbits, hk]
  constructor
  · have : 2 ^ (k + 1) = 2 * 2 ^ k := by ring
    omega
  · exact hhi

theorem abs_rat_eq (q : ℚ) : |q| = (q.num.natAbs : ℚ) / q.den := by
  have hd : (0 : ℚ) < q.den := by exact_mod_cast q.pos
  conv_lhs => rw [← Rat.num_div_den q]
  rw [abs_div, abs_of_pos hd, ← Int.cast_abs, Int.abs_eq_natAbs,
    Int.cast_natCast]

theorem qexp_spec (q : ℚ) (hq : q ≠ 0) :
    (2 : ℚ) ^ qexp q ≤ |q| ∧ |q| < 2 ^ (qexp q + 1) := by
  have hnum : q.num.natAbs ≠ 0 := fun h =>
    hq (Rat.num_eq_zero.mp (Int.natAbs_eq_zero.mp h))
  have hden : q.den ≠ 0 := q.den_nz
  obtain ⟨hn1, hn2⟩ := nbits_spec q.num.natAbs hnum
  obtain ⟨hd1, hd2⟩ := nbits_spec q.den hden
  have habs : |q| = (q.num.natAbs : ℚ) / q.den := abs_rat_eq q
  have hdpos : (0 : ℚ) < q.den := by exact_mod_cast Nat.pos_of_ne_zero hden
  have hnpos : (0 : ℚ) < q.num.natAbs := by
    exact_mod_cast Nat.pos_of_ne_zero hnum
  have hlow : (2 : ℚ) ^ ((nbits q.num.natAbs : ℤ) - nbits q.den - 1) < |q| := by
    rw [habs]
    have e1 : (2 : ℚ) ^ ((nbits q.num.natAbs : ℤ) - nbits q.den - 1) =
        2 ^ (nbits q.num.natAbs : ℤ) / (2 * 2 ^ (nbits q.den : ℤ)) := by
      rw [show ((nbits q.num.natAbs : ℤ) - nbits q.den - 1) =
          (nbits q.num.natAbs : ℤ) - ((nbits q.den : ℤ) + 1) by ring,
        zpow_sub₀ (by norm_num : (2:ℚ) ≠ 0),
        zpow_add₀ (by norm_num : (2:ℚ) ≠ 0), zpow_one]
      ring
    rw [e1, div_lt_div_iff₀ (by positivity) hdpos]
    have c1 : (2 : ℚ) ^ (nbits q.num.natAbs : ℤ) ≤ 2 * q.num.natAbs := by
      rw [zpow_natCast]
      exact_mod_cast hn1
    have c2 : (q.den : ℚ) < 2 ^ (nbits q.den : ℤ) := by
      rw [zpow_natCast]
      exact_mod_cast hd2
    calc (2 : ℚ) ^ (nbits q.num.natAbs : ℤ) * q.den
        ≤ (2 * q.num.natAbs) * q.den :=
          mul_le_mul_of_nonneg_right c1 (le_of_lt hdpos)
      _ < (2 * q.num.natAbs) * (2 ^ (nbits q.den : ℤ)) :=
          mul_lt_mul_of_pos_left c2 (by positivity)
      _ = q.num.natAbs * (2 * 2 ^ (nbits q.den : ℤ)) := by ring
  have hhigh : |q| < (2 : ℚ) ^ ((nbits q.num.natAbs : ℤ) - nbits q.den + 1) := by
    rw [habs]
    have e1 : (2 : ℚ) ^ ((nbits q.num.natAbs : ℤ) - nbits q.den + 1) =
        (2 * 2 ^ (nbits q.num.natAbs : ℤ)) / 2 ^ (nbits q.den : ℤ) := by
      rw [show ((nbits q.num.natAbs : ℤ) - nbits q.den + 1) =
          ((nbits q.num.natAbs : ℤ) + 1) - (nbits q.den : ℤ) by ring,
        zpow_sub₀ (by norm_num : (2:ℚ) ≠ 0),
        zpow_add₀ (by norm_num : (2:ℚ) ≠ 0), zpow_one]
      ring
    rw [e1, div_lt_div_iff₀ hdpos (by positivity)]
    have c1 : (q.num.natAbs : ℚ) < 2 ^ (nbits q.num.natAbs : ℤ) := by
      rw [zpow_natCast]
      exact_mod_cast hn2
    have c2 : (2 : ℚ) ^ (nbits q.den : ℤ) ≤ 2 * q.den := by
      rw [zpow_natCast]
      exact_mod_cast hd1
    calc (q.num.natAbs : ℚ) * 2 ^ (nbits q.den : ℤ)
        < 2 ^ (nbits q.num.natAbs : ℤ) * 2 ^ (nbits q.den : ℤ) :=
          mul_lt_mul_of_pos_right c1 (by positivity)
      _ ≤ 2 ^ (nbits q.num.natAbs : ℤ) * (2 * q.den) :=
          mul_le_mul_of_nonneg_left c2 (by positivity)
      _ = (2 * 2 ^ (nbits q.num.natAbs : ℤ)) * q.den := by ring
  unfold qexp
  by_cases hcase :
      (2 : ℚ) ^ ((nbits q.num.natAbs : ℤ) - nbits q.den) ≤ |q|
  · rw [if_pos hcase]
    exact ⟨hcase, hhigh⟩
  · rw [if_neg hcase]
    push_neg at hcase
    refine ⟨le_of_lt hlow, ?_⟩
    rw [show (nbits q.num.natAbs : ℤ) - nbits q.den - 1 + 1 =
        (nbits q.num.natAbs : ℤ) - nbits q.den by ring]
    exact hcase

theorem rne_abs (r : ℚ) : |(rne r : ℚ) - r| ≤ 1 / 2 := by
  have h1 := Int.floor_le r
  have h2 := Int.lt_floor_add_one r
  rw [rne]
  split_ifs with c1 c2 c3 <;> rw [abs_sub_le_iff] <;> constructor <;>
    push_cast <;> linarith

theorem rne_intCast (m : ℤ) : rne (m : ℚ) = m := by
  rw [rne]
  simp

theorem rne_eq_of_abs_lt (r : ℚ) (m : ℤ) (h : |r - (m : ℚ)| < 1 / 2) :
    rne r = m := by
  have h1 := rne_abs r
  have h2 : |(rne r : ℚ) - m| < 1 := by
    have he : (rne r : ℚ) - m = ((rne r : ℚ) - r) + (r - m) := by ring
    rw [he]
    calc |((rne r : ℚ) - r) + (r - m)|
        ≤ |(rne r : ℚ) - r| + |r - m| := abs_add _ _
      _ < 1 := by linarith
  have h3 : |rne r - m| < 1 := by
    have hc : ((|rne r - m| : ℤ) : ℚ) < 1 := by
      push_cast
      exact h2
    exact_mod_cast hc
  rw [abs_lt] at h3
  omega

theorem rnd_err (prec : ℕ) (q : ℚ) (hq : q ≠ 0) :
    |rnd prec q - q| ≤ 2 ^ (qexp q - prec) := by
  rw [rnd, if_neg hq]
  set e : ℤ := qexp q - prec + 1 with he
  have hpow : (0 : ℚ) < 2 ^ e := by positivity
  have h1 := rne_abs (q / 2 ^ e)
  have key : (rne (q / 2 ^ e) : ℚ) * 2 ^ e - q =
      ((rne (q / 2 ^ e) : ℚ) - q / 2 ^ e) * 2 ^ e := by
    field_simp
  rw [key, abs_mul, abs_of_pos hpow]
  calc |(rne (q / 2 ^ e) : ℚ) - q / 2 ^ e| * 2 ^ e
      ≤ (1 / 2) * 2 ^ e := by
        exact mul_le_mul_of_nonneg_right h1 (le_of_lt hpow)
    _ = 2 ^ (qexp q - prec) := by
        rw [he, show qexp q - (prec : ℤ) + 1 = (qexp q - prec) + 1 by ring,
          zpow_add₀ (by norm_num : (2:ℚ) ≠ 0)]
        ring

theorem rnd_err_rel (prec : ℕ) (q : ℚ) (hq : 0 < q) :
    |rnd prec q - q| ≤ q * 2 ^ (-(prec : ℤ)) := by
  have h := rnd_err prec q (ne_of_gt hq)
  have hs := (qexp_spec q (ne_of_gt hq)).1
  rw [abs_of_pos hq] at hs
  calc |rnd prec q - q| ≤ 2 ^ (qexp q - prec) := h
    _ = 2 ^ qexp q * 2 ^ (-(prec : ℤ)) := by
        rw [show qexp q - (prec : ℤ) = qexp q + (-(prec:ℤ)) by ring,
          zpow_add₀ (by norm_num : (2:ℚ) ≠ 0)]
    _ ≤ q * 2 ^ (-(prec : ℤ)) := by
        exact mul_le_mul_of_nonneg_right hs (by positivity)

theorem rnd_bounds (prec : ℕ) (q : ℚ) (hq : 0 < q) :
    q * (1 - 2 ^ (-(prec : ℤ))) ≤ rnd prec q ∧
      rnd prec q ≤ q * (1 + 2 ^ (-(prec : ℤ))) := by
  have h := abs_sub_le_iff.mp (rnd_err_rel prec q hq)
  constructor <;> nlinarith [h.1, h.2]

theorem rnd_pos (prec : ℕ) (q : ℚ) (hq : 0 < q) (hp : 1 ≤ prec) :
    0 < rnd prec q := by
  have h := (rnd_bounds prec q hq).1
  have he : (2 : ℚ) ^ (-(prec : ℤ)) ≤ 2 ^ (-1 : ℤ) := by
    apply zpow_le_zpow_right₀ (by norm_num)
    omega
  have h12 : (2 : ℚ) ^ (-1 : ℤ) = 1 / 2 := by norm_num
  rw [h12] at he
  have hpos : (0 : ℚ) < q * (1 - 2 ^ (-(prec : ℤ))) :=
    mul_pos hq (by linarith)
  linarith

theorem rnd_exact_nat (prec : ℕ) (n : ℕ) (hn : n ≠ 0) (h : n < 2 ^ prec) :
    rnd prec (n : ℚ) = n := by
  have hq : ((n : ℚ)) ≠ 0 := by exact_mod_cast hn
  have hqe := qexp_spec (n : ℚ) hq
  have hlt : qexp (n : ℚ) < prec := by
    by_contra hge
    push_neg at hge
    have h1 : (2 : ℚ) ^ (prec : ℤ) ≤ 2 ^ qexp (n : ℚ) :=
      zpow_le_zpow_right₀ (by norm_num) hge
    have h2 : |((n : ℚ))| = (n : ℚ) := abs_of_pos (by exact_mod_cast Nat.pos_of_ne_zero hn)
    have h3 : ((n : ℚ)) < 2 ^ (prec : ℤ) := by
      rw [zpow_natCast]
      exact_mod_cast h
    rw [h2] at hqe
    linarith [hqe.1]
  rw [rnd, if_neg hq]
  set e : ℤ := qexp (n : ℚ) - prec + 1 with he
  have hele : e ≤ 0 := by omega
  set k : ℕ := (-e).toNat with hk
  have hek : e = -(k : ℤ) := by omega
  have hscale : (n : ℚ) / 2 ^ e = ((n * 2 ^ k : ℕ) : ℚ) := by
    rw [hek, zpow_neg, div_inv_eq_mul]
    push_cast
    rw [zpow_natCast]
  rw [hscale]
  have : rne (((n * 2 ^ k : ℕ) : ℚ)) = ((n * 2 ^ k : ℕ) : ℤ) := by
    have := rne_intCast ((n * 2 ^ k : ℕ) : ℤ)
    rwa [Int.cast_natCast] at this
  rw [this]
  rw [hek, zpow_neg]
  push_cast
  rw [zpow_natCast]
  field_simp

theorem rnd_step_lower (q lo : ℚ) (hq : 0 < q) (hlo : lo ≤ q) :
    lo * (1 - 2 ^ (-(53:ℤ))) ≤ rnd 53 q :=
  le_trans (mul_le_mul_of_nonneg_right hlo (by norm_num)) (rnd_bounds 53 q hq).1

theorem rnd_step_upper (q hi : ℚ) (hq : 0 < q) (hhi : q ≤ hi) :
    rnd 53 q ≤ hi * (1 + 2 ^ (-(53:ℤ))) :=
  le_trans (rnd_bounds 53 q hq).2 (mul_le_mul_of_nonneg_right hhi (by norm_num))

/-- The f64 pace chain lies within relative error `6 * 2 ^ (-53)` of the
exact value `5793624 / (10 * s)` (which equals
`(3600 / s) * 1.60934 * 100`). -/
theorem paceChainBounds (s : ℕ) (hs : 1 ≤ s) :
    5793624 / (10 * (s : ℚ)) * (1 - 6 * 2 ^ (-(53:ℤ))) ≤
        rnd 53 (rnd 53 (rnd 53 (rnd 53 (1 / (s : ℚ)) * 3600) * mileRate) * 100) ∧
      rnd 53 (rnd 53 (rnd 53 (rnd 53 (1 / (s : ℚ)) * 3600) * mileRate) * 100) ≤
        5793624 / (10 * (s : ℚ)) * (1 + 6 * 2 ^ (-(53:ℤ))) := by
  have hs0 : (0 : ℚ) < s := by exact_mod_cast hs
  have hsne : (s : ℚ) ≠ 0 := ne_of_gt hs0
  have hinv : (0 : ℚ) < 1 / s := by positivity
  have hapos : 0 < rnd 53 (1 / (s:ℚ)) := rnd_pos 53 _ hinv (by norm_num)
  have hbpos : 0 < rnd 53 (rnd 53 (1 / (s:ℚ)) * 3600) :=
    rnd_pos 53 _ (mul_pos hapos (by norm_num)) (by norm_num)
  have hRpos : 0 < mileRate := rnd_pos 53 1.60934 (by norm_num) (by norm_num)
  have hR : 1.60934 * (1 - 2 ^ (-(53:ℤ))) ≤ mileRate ∧
      mileRate ≤ 1.60934 * (1 + 2 ^ (-(53:ℤ))) := rnd_bounds 53 1.60934 (by norm_num)
  have hcpos : 0 < rnd 53 (rnd 53 (rnd 53 (1 / (s:ℚ)) * 3600) * mileRate) :=
    rnd_pos 53 _ (mul_pos hbpos hRpos) (by norm_num)
  -- lower chain
  have la : 1 / (s:ℚ) * (1 - 2 ^ (-(53:ℤ))) ≤ rnd 53 (1 / (s:ℚ)) :=
    (rnd_bounds 53 _ hinv).1
  have lb : 1 / (s:ℚ) * (1 - 2 ^ (-(53:ℤ))) * 3600 * (1 - 2 ^ (-(53:ℤ))) ≤
      rnd 53 (rnd 53 (1 / (s:ℚ)) * 3600) :=
    rnd_step_lower _ _ (mul_pos hapos (by norm_num))
      (mul_le_mul_of_nonneg_right la (by norm_num))
  have lc : (1 / (s:ℚ) * (1 - 2 ^ (-(53:ℤ))) * 3600 * (1 - 2 ^ (-(53:ℤ)))) *
        (1.60934 * (1 - 2 ^ (-(53:ℤ)))) * (1 - 2 ^ (-(53:ℤ))) ≤
      rnd 53 (rnd 53 (rnd 53 (1 / (s:ℚ)) * 3600) * mileRate) :=
    rnd_step_lower _ _ (mul_pos hbpos hRpos)
      (mul_le_mul lb hR.1 (by positivity) (le_of_lt hbpos))
  have ld : ((1 / (s:ℚ) * (1 - 2 ^ (-(53:ℤ))) * 3600 * (1 - 2 ^ (-(53:ℤ)))) *
        (1.60934 * (1 - 2 ^ (-(53:ℤ)))) * (1 - 2 ^ (-(53:ℤ)))) * 100 *
        (1 - 2 ^ (-(53:ℤ))) ≤
      rnd 53 (rnd 53 (rnd 53 (rnd 53 (1 / (s:ℚ)) * 3600) * mileRate) * 100) :=
    rnd_step_lower _ _ (mul_pos hcpos (by norm_num))
      (mul_le_mul_of_nonneg_right lc (by norm_num))
  -- upper chain
  have ua : rnd 53 (1 / (s:ℚ)) ≤ 1 / (s:ℚ) * (1 + 2 ^ (-(53:ℤ))) :=
    (rnd_bounds 53 _ hinv).2
  have ub : rnd 53 (rnd 53 (1 / (s:ℚ)) * 3600) ≤
      1 / (s:ℚ) * (1 + 2 ^ (-(53:ℤ))) * 3600 * (1 + 2 ^ (-(53:ℤ))) :=
    rnd_step_upper _ _ (mul_pos hapos (by norm_num))
      (mul_le_mul_of_nonneg_right ua (by norm_num))
  have uc : rnd 53 (rnd 53 (rnd 53 (1 / (s:ℚ)) * 3600) * mileRate) ≤
      (1 / (s:ℚ) * (1 + 2 ^ (-(53:ℤ))) * 3600 * (1 + 2 ^ (-(53:ℤ)))) *
        (1.60934 * (1 + 2 ^ (-(53:ℤ)))) * (1 + 2 ^ (-(53:ℤ))) :=
    rnd_step_upper _ _ (mul_pos hbpos hRpos)
      (mul_le_mul ub hR.2 (le_of_lt hRpos) (by positivity))
  have ud : rnd 53 (rnd 53 (rnd 53 (rnd 53 (1 / (s:ℚ)) * 3600) * mileRate) * 100) ≤
      ((1 / (s:ℚ) * (1 + 2 ^ (-(53:ℤ))) * 3600 * (1 + 2 ^ (-(53:ℤ)))) *
        (1.60934 * (1 + 2 ^ (-(53:ℤ)))) * (1 + 2 ^ (-(53:ℤ)))) * 100 *
        (1 + 2 ^ (-(53:ℤ))) :=
    rnd_step_upper _ _ (mul_pos hcpos (by norm_num))
      (mul_le_mul_of_nonneg_right uc (by norm_num))
  constructor
  · refine le_trans ?_ ld
    have hre : (1 / (s:ℚ) * (1 - 2 ^ (-(53:ℤ))) * 3600 * (1 - 2 ^ (-(53:ℤ)))) *
          (1.60934 * (1 - 2 ^ (-(53:ℤ)))) * (1 - 2 ^ (-(53:ℤ))) * 100 *
          (1 - 2 ^ (-(53:ℤ))) =
        5793624 / (10 * (s:ℚ)) * ((1 - 2 ^ (-(53:ℤ))) ^ 5) := by
      field_simp
      ring
    rw [hre]
    apply mul_le_mul_of_nonneg_left ?_ (by positivity)
    norm_num
  · refine le_trans ud ?_
    have hre : (1 / (s:ℚ) * (1 + 2 ^ (-(53:ℤ))) * 3600 * (1 + 2 ^ (-(53:ℤ)))) *
          (1.60934 * (1 + 2 ^ (-(53:ℤ)))) * (1 + 2 ^ (-(53:ℤ))) * 100 *
          (1 + 2 ^ (-(53:ℤ))) =
        5793624 / (10 * (s:ℚ)) * ((1 + 2 ^ (-(53:ℤ))) ^ 5) := by
      field_simp
      ring
    rw [hre]
    apply mul_le_mul_of_nonneg_left ?_ (by positivity)
    norm_num

/-- For 9 ≤ s ≤ 65535 the f64 pace chain truncates to exactly
`5793624 / (10 * s)` (natural division), the floor of the exact
conversion. -/
theorem paceFromSecondsPerMile_eq_div (s : ℕ) (h9 : 9 ≤ s) :
    paceFromSecondsPerMile s = 5793624 / (10 * s) := by
  have hs0 : ¬ s = 0 := by omega
  rw [paceFromSecondsPerMile, if_neg hs0]
  obtain ⟨hlo, hhi⟩ := paceChainBounds s (by omega)
  have hT0 : 0 < 10 * s := by omega
  have hdm := Nat.div_add_mod 5793624 (10 * s)
  have hmlt : 5793624 % (10 * s) < 10 * s := Nat.mod_lt _ hT0
  have hm0 : 5793624 % (10 * s) ≠ 0 := by
    intro h0
    have hdvd : (5:ℕ) ∣ 5793624 :=
      dvd_trans ⟨2 * s, by ring⟩ (Nat.dvd_of_mod_eq_zero h0)
    norm_num at hdvd
  have hTq : (0:ℚ) < 10 * (s:ℚ) := by positivity
  have hcast : (10 * (s:ℚ)) * (5793624 / (10 * s) : ℕ) +
      ((5793624 % (10 * s) : ℕ) : ℚ) = 5793624 := by
    exact_mod_cast hdm
  have hm1 : (1:ℚ) ≤ ((5793624 % (10 * s) : ℕ) : ℚ) := by
    exact_mod_cast Nat.one_le_iff_ne_zero.mpr hm0
  have hmT : ((5793624 % (10 * s) : ℕ) : ℚ) + 1 ≤ 10 * (s:ℚ) := by
    exact_mod_cast hmlt
  have hsmall : (5793624:ℚ) * (6 * 2 ^ (-(53:ℤ))) < 1 := by norm_num
  have hlow2 : (((5793624 / (10 * s) : ℕ) : ℚ)) <
      rnd 53 (rnd 53 (rnd 53 (rnd 53 (1 / (s : ℚ)) * 3600) * mileRate) * 100) := by
    have h1 : (5793624:ℚ) * (1 - 6 * 2 ^ (-(53:ℤ))) ≤
        rnd 53 (rnd 53 (rnd 53 (rnd 53 (1 / (s : ℚ)) * 3600) * mileRate) * 100) *
          (10 * (s:ℚ)) := by
      calc (5793624:ℚ) * (1 - 6 * 2 ^ (-(53:ℤ)))
          = (5793624 / (10 * (s:ℚ)) * (1 - 6 * 2 ^ (-(53:ℤ)))) * (10 * (s:ℚ)) := by
            field_simp
            ring
        _ ≤ _ := mul_le_mul_of_nonneg_right hlo (le_of_lt hTq)
    have h2 : (((5793624 / (10 * s) : ℕ) : ℚ)) * (10 * (s:ℚ)) <
        (5793624:ℚ) * (1 - 6 * 2 ^ (-(53:ℤ))) := by
      nlinarith [hcast]
    have h3 := lt_of_lt_of_le h2 h1
    exact lt_of_mul_lt_mul_right h3 (le_of_lt hTq)
  have hhigh2 : rnd 53 (rnd 53 (rnd 53 (rnd 53 (1 / (s : ℚ)) * 3600) * mileRate) * 100) <
      (((5793624 / (10 * s) : ℕ) : ℚ)) + 1 := by
    have h1 : rnd 53 (rnd 53 (rnd 53 (rnd 53 (1 / (s : ℚ)) * 3600) * mileRate) * 100) *
        (10 * (s:ℚ)) ≤ (5793624:ℚ) * (1 + 6 * 2 ^ (-(53:ℤ))) := by
      calc rnd 53 (rnd 53 (rnd 53 (rnd 53 (1 / (s : ℚ)) * 3600) * mileRate) * 100) *
            (10 * (s:ℚ))
          ≤ (5793624 / (10 * (s:ℚ)) * (1 + 6 * 2 ^ (-(53:ℤ)))) * (10 * (s:ℚ)) :=
            mul_le_mul_of_nonneg_right hhi (le_of_lt hTq)
        _ = (5793624:ℚ) * (1 + 6 * 2 ^ (-(53:ℤ))) := by
            field_simp
            ring
    have h2 : (5793624:ℚ) * (1 + 6 * 2 ^ (-(53:ℤ))) <
        ((((5793624 / (10 * s) : ℕ) : ℚ)) + 1) * (10 * (s:ℚ)) := by
      nlinarith [hcast]
    have h3 := lt_of_le_of_lt h1 h2
    exact lt_of_mul_lt_mul_right h3 (le_of_lt hTq)
  have hdpos : (0:ℚ) ≤
      rnd 53 (rnd 53 (rnd 53 (rnd 53 (1 / (s : ℚ)) * 3600) * mileRate) * 100) :=
    le_trans (by positivity) (le_of_lt hlow2)
  rw [u16ofFloat, if_neg (not_lt.mpr hdpos)]
  have hfl : ⌊rnd 53 (rnd 53 (rnd 53 (rnd 53 (1 / (s : ℚ)) * 3600) * mileRate) * 100)⌋ =
      ((5793624 / (10 * s) : ℕ) : ℤ) := by
    rw [Int.floor_eq_iff]
    constructor
    · exact_mod_cast le_of_lt hlow2
    · exact_mod_cast hhigh2
  rw [hfl, Int.toNat_natCast]
  have hFle : 5793624 / (10 * s) ≤ 64373 := by
    have hstep : 5793624 / (10 * s) ≤ 5793624 / 90 :=
      Nat.div_le_div_left (by omega) (by omega)
    omega
  exact min_eq_left (by omega)

/-- For 1 ≤ s ≤ 8 the conversion exceeds the u16 range and the cast
saturates to 65535. -/
theorem paceFromSecondsPerMile_sat (s : ℕ) (h1 : 1 ≤ s) (h8 : s ≤ 8) :
    paceFromSecondsPerMile s = 65535 := by
  have hs0 : ¬ s = 0 := by omega
  rw [paceFromSecondsPerMile, if_neg hs0]
  obtain ⟨hlo, -⟩ := paceChainBounds s h1
  have hTq : (0:ℚ) < 10 * (s:ℚ) := by positivity
  have hV80 : (72420:ℚ) ≤ 5793624 / (10 * (s:ℚ)) := by
    rw [le_div_iff₀ hTq]
    have hsle : (s:ℚ) ≤ 8 := by exact_mod_cast h8
    nlinarith
  have hd : (65536:ℚ) ≤
      rnd 53 (rnd 53 (rnd 53 (rnd 53 (1 / (s : ℚ)) * 3600) * mileRate) * 100) := by
    have h2 : (72420:ℚ) * (1 - 6 * 2 ^ (-(53:ℤ))) ≤
        rnd 53 (rnd 53 (rnd 53 (rnd 53 (1 / (s : ℚ)) * 3600) * mileRate) * 100) :=
      le_trans (mul_le_mul_of_nonneg_right hV80 (by norm_num)) hlo
    have h3 : (65536:ℚ) ≤ 72420 * (1 - 6 * 2 ^ (-(53:ℤ))) := by norm_num
    linarith
  have hdpos : (0:ℚ) ≤
      rnd 53 (rnd 53 (rnd 53 (rnd 53 (1 / (s : ℚ)) * 3600) * mileRate) * 100) := by
    linarith
  rw [u16ofFloat, if_neg (not_lt.mpr hdpos)]
  have hge : (65535:ℤ) ≤
      ⌊rnd 53 (rnd 53 (rnd 53 (rnd 53 (1 / (s : ℚ)) * 3600) * mileRate) * 100)⌋ :=
    Int.le_floor.mpr (by exact_mod_cast le_trans (by norm_num) hd)
  have h65 : 65535 ≤
      (⌊rnd 53 (rnd 53 (rnd 53 (rnd 53 (1 / (s : ℚ)) * 3600) * mileRate) * 100)⌋).toNat := by
    omega
  exact min_eq_right h65

/-- Whenever `pace * duration < 2 ^ 24` the f32 distance computation
equals the exact `floor(pace * duration / 1000)`. -/
theorem runDistance_floor (p t : ℕ) (h : p * t < 2 ^ 24) :
    runDistance p t = p * t / 1000 := by
  rw [runDistance]
  have hcast : ((p:ℚ) * t) = ((p * t : ℕ) : ℚ) := by push_cast; ring
  rw [hcast]
  rcases Nat.eq_zero_or_pos (p * t) with h0 | hpos
  · rw [h0]
    simp [rnd, u16ofFloat]
  · have hPne : (p * t : ℕ) ≠ 0 := by omega
    rw [rnd_exact_nat 24 (p * t) hPne h]
    have hdm := Nat.div_add_mod (p * t) 1000
    have hFle : p * t / 1000 ≤ 16777 := by
      have hstep : p * t / 1000 ≤ 16777215 / 1000 :=
        Nat.div_le_div_right (by omega)
      omega
    rcases Nat.eq_zero_or_pos (p * t % 1000) with hm0 | hmpos
    · have hPF : p * t = 1000 * (p * t / 1000) := by omega
      have hcast2 : (((p * t : ℕ)) : ℚ) / 1000 = ((p * t / 1000 : ℕ) : ℚ) := by
        rw [hPF]
        push_cast
        rw [Nat.mul_div_cancel_left _ (by norm_num : (0:ℕ) < 1000)]
        ring
      rw [hcast2]
      have hF0 : (p * t / 1000 : ℕ) ≠ 0 ∨ (p * t / 1000 : ℕ) = 0 := by omega
      rcases Nat.eq_zero_or_pos (p * t / 1000) with hz | hFpos
      · rw [hz]
        simp [rnd, u16ofFloat]
      · rw [rnd_exact_nat 24 (p * t / 1000) (by omega) (by omega)]
        rw [u16ofFloat, if_neg (not_lt.mpr (by positivity))]
        rw [Int.floor_natCast, Int.toNat_natCast]
        exact min_eq_left (by omega)
    · have hPq : (0:ℚ) < ((p * t : ℕ) : ℚ) := by exact_mod_cast hpos
      have hxpos : 0 < ((p * t : ℕ) : ℚ) / 1000 := div_pos hPq (by norm_num)
      have herr := rnd_err 24 (((p * t : ℕ) : ℚ) / 1000) (ne_of_gt hxpos)
      have hqe := qexp_spec (((p * t : ℕ) : ℚ) / 1000) (ne_of_gt hxpos)
      rw [abs_of_pos hxpos] at hqe
      have hxlt : ((p * t : ℕ) : ℚ) / 1000 < 2 ^ (15:ℤ) := by
        rw [div_lt_iff₀ (by norm_num)]
        have hb : ((p * t : ℕ) : ℚ) < 16777216 := by exact_mod_cast h
        norm_num
        linarith
      have hqle : qexp (((p * t : ℕ) : ℚ) / 1000) ≤ 14 := by
        by_contra hgt
        push_neg at hgt
        have hz : (2:ℚ) ^ (15:ℤ) ≤ 2 ^ qexp (((p * t : ℕ) : ℚ) / 1000) :=
          zpow_le_zpow_right₀ (by norm_num) (by omega)
        linarith [hqe.1]
      have herr2 : |rnd 24 (((p * t : ℕ) : ℚ) / 1000) - ((p * t : ℕ) : ℚ) / 1000| ≤
          2 ^ (-(10:ℤ)) :=
        le_trans herr (zpow_le_zpow_right₀ (by norm_num) (by omega))
      have hxeq : ((p * t : ℕ) : ℚ) / 1000 =
          ((p * t / 1000 : ℕ) : ℚ) + ((p * t % 1000 : ℕ) : ℚ) / 1000 := by
        have hPQ : ((p * t : ℕ) : ℚ) =
            1000 * ((p * t / 1000 : ℕ) : ℚ) + ((p * t % 1000 : ℕ) : ℚ) := by
          exact_mod_cast hdm.symm
        rw [hPQ]
        ring
      have hm999 : ((p * t % 1000 : ℕ) : ℚ) ≤ 999 := by
        exact_mod_cast (by omega : p * t % 1000 ≤ 999)
      have hm1 : (1:ℚ) ≤ ((p * t % 1000 : ℕ) : ℚ) := by exact_mod_cast hmpos
      have habs := abs_sub_le_iff.mp herr2
      have hten : (2:ℚ) ^ (-(10:ℤ)) = 1 / 1024 := by norm_num
      rw [hten] at habs
      have hlow2 : ((p * t / 1000 : ℕ) : ℚ) < rnd 24 (((p * t : ℕ) : ℚ) / 1000) := by
        nlinarith [habs.2]
      have hhigh2 : rnd 24 (((p * t : ℕ) : ℚ) / 1000) < ((p * t / 1000 : ℕ) : ℚ) + 1 := by
        nlinarith [habs.1]
      rw [u16ofFloat,
        if_neg (not_lt.mpr (le_trans (by positivity) (le_of_lt hlow2)))]
      have hfl : ⌊rnd 24 (((p * t : ℕ) : ℚ) / 1000)⌋ = ((p * t / 1000 : ℕ) : ℤ) := by
        rw [Int.floor_eq_iff]
        constructor
        · exact_mod_cast le_of_lt hlow2
        · exact_mod_cast hhigh2
      rw [hfl, Int.toNat_natCast]
      exact min_eq_left (by omega)

theorem splitOnColon_no_colon (l : List Char) (h : ':' ∉ l) :
    splitOnColon l = [l] := by
  induction l with
  | nil => rfl
  | cons c rest ih =>
    have hc : ¬ c = ':' := fun he => h (by simp [he])
    have hr : ':' ∉ rest := fun hm => h (by simp [hm])
    rw [splitOnColon, if_neg hc, ih hr]

theorem splitOnColon_append (m sc : List Char) (hm : ':' ∉ m)
    (hsc : ':' ∉ sc) : splitOnColon (m ++ ':' :: sc) = [m, sc] := by
  induction m with
  | nil => simp [splitOnColon, splitOnColon_no_colon sc hsc]
  | cons c rest ih =>
    have hc : ¬ c = ':' := fun he => hm (by simp [he])
    have hr : ':' ∉ rest := fun hmem => hm (by simp [hmem])
    rw [List.cons_append, splitOnColon, if_neg hc, ih hr]

theorem parseU16_no_colon (l : List Char) (v : ℕ)
    (h : parseU16 l = some v) : ':' ∉ l := by
  intro hmem
  rw [parseU16] at h
  split_ifs at h with h1 h2
  · have hall := h1.2
    rw [List.all_eq_true] at hall
    exact absurd (hall ':' hmem) (by decide)

/-- Pins `rnd` at a concrete value: if `q` lies in the binade
`[2 ^ (prec - 1 + e), 2 ^ (prec + e))` and `q / 2 ^ e` is within 1/2 of
the integer `m`, then `rnd prec q = m * 2 ^ e`. -/
theorem rnd_eq_of_bounds (prec : ℕ) (q : ℚ) (m e : ℤ) (hq : 0 < q)
    (h1 : (2:ℚ) ^ ((prec:ℤ) - 1 + e) ≤ q) (h2 : q < 2 ^ ((prec:ℤ) + e))
    (hclose : |q / 2 ^ e - (m:ℚ)| < 1 / 2) :
    rnd prec q = m * 2 ^ e := by
  have hqne : q ≠ 0 := ne_of_gt hq
  have hspec := qexp_spec q hqne
  rw [abs_of_pos hq] at hspec
  have hqe : qexp q = (prec:ℤ) - 1 + e := by
    by_contra hne
    rcases lt_or_gt_of_ne hne with hlt | hgt
    · have hz : (2:ℚ) ^ (qexp q + 1) ≤ 2 ^ ((prec:ℤ) - 1 + e) :=
        zpow_le_zpow_right₀ (by norm_num) (by omega)
      linarith [hspec.2]
    · have hz : (2:ℚ) ^ ((prec:ℤ) + e) ≤ 2 ^ (qexp q) :=
        zpow_le_zpow_right₀ (by norm_num) (by omega)
      linarith [hspec.1]
  rw [rnd, if_neg hqne, hqe, show (prec:ℤ) - 1 + e - prec + 1 = e by ring,
    rne_eq_of_abs_lt _ m hclose]

theorem rnd24_79100745 : rnd 24 (79100745 : ℚ) = 79100744 := by
  have h := rnd_eq_of_bounds 24 79100745 9887593 3 (by norm_num)
    (by norm_num) (by norm_num)
    (by rw [abs_sub_lt_iff]; constructor <;> norm_num)
  rw [h]
  norm_num

theorem rnd24_79100744div1000 :
    rnd 24 ((79100744 : ℚ) / 1000) = 10124895 * 2 ^ (-(7:ℤ)) := by
  exact rnd_eq_of_bounds 24 ((79100744 : ℚ) / 1000) 10124895 (-(7:ℤ))
    (by norm_num) (by norm_num) (by norm_num)
    (by rw [abs_sub_lt_iff]; constructor <;> norm_num)

theorem runDistance_1207_65535 : runDistance 1207 65535 = 65535 := by
  rw [runDistance]
  have hc : (((1207:ℕ)):ℚ) * ((65535:ℕ):ℚ) = 79100745 := by norm_num
  rw [hc, rnd24_79100745, rnd24_79100744div1000, u16ofFloat]
  have hval : (10124895 : ℚ) * 2 ^ (-(7:ℤ)) = 10124895 / 128 := by norm_num
  rw [if_neg (by rw [hval]; norm_num), hval]
  have hfl : ⌊(10124895:ℚ) / 128⌋ = 79100 := by
    rw [Int.floor_eq_iff]
    constructor <;> norm_num
  rw [hfl]
  rfl

theorem intFloor_natCast_div (a b : ℕ) (hb : 0 < b) :
    ⌊((a:ℚ)) / ((b:ℚ))⌋ = ((a / b : ℕ) : ℤ) := by
  have hdm := Nat.div_add_mod a b
  have hbq : (0:ℚ) < b := by exact_mod_cast hb
  have h2 : ((a:ℕ):ℚ) = b * ((a / b : ℕ) : ℚ) + ((a % b : ℕ) : ℚ) := by
    exact_mod_cast hdm.symm
  have hmlt : ((a % b : ℕ) : ℚ) < b := by exact_mod_cast Nat.mod_lt a hb
  have hmnn : (0:ℚ) ≤ ((a % b : ℕ) : ℚ) := by positivity
  rw [Int.floor_eq_iff]
  constructor
  · rw [le_div_iff₀ hbq, Int.cast_natCast]
    linarith
  · rw [div_lt_iff₀ hbq, Int.cast_natCast]
    linarith

theorem floorFormula (s : ℕ) (hs : 1 ≤ s) :
    (⌊3600 / ((s : ℕ) : ℚ) * 1.60934 * 100⌋).toNat = 5793624 / (10 * s) := by
  have hs0 : (0:ℚ) < s := by exact_mod_cast hs
  have harg : 3600 / ((s:ℕ):ℚ) * 1.60934 * 100 =
      ((5793624:ℕ):ℚ) / ((10 * s : ℕ):ℚ) := by
    have hsne : ((s:ℕ):ℚ) ≠ 0 := ne_of_gt hs0
    push_cast
    field_simp
    ring
  rw [harg, intFloor_natCast_div 5793624 (10 * s) (by omega),
    Int.toNat_natCast]

theorem pace800 : parse_pace (.minPerMi ['8', ':', '0', '0']) = some 1207 := by
  have h0 : (splitOnColon ['8', ':', '0', '0']).getD 0 ['0'] = ['8'] := by decide
  have h1 : (splitOnColon ['8', ':', '0', '0']).getD 1 ['0'] = ['0', '0'] := by
    decide
  have hm : parseU16 ['8'] = some 8 := by decide
  have hs : parseU16 ['0', '0'] = some 0 := by decide
  simp only [parse_pace, h0, h1, hm, hs]
  rw [show (8 * 60 + 0) % 65536 = 480 from by norm_num,
    paceFromSecondsPerMile_eq_div 480 (by norm_num)]

theorem foldl_wrap_sum (f : WorkoutStep → ℕ) :
    ∀ (l : List WorkoutStep) (a : ℕ), a < 65536 →
      l.foldl (fun acc st => (acc + f st) % 65536) a =
        (a + (l.map f).sum) % 65536 := by
  intro l
  induction l with
  | nil => intro a ha; simp [Nat.mod_eq_of_lt ha]
  | cons hd tl ih =>
    intro a ha
    simp only [List.foldl_cons, List.map_cons, List.sum_cons]
    rw [ih _ (Nat.mod_lt _ (by norm_num)), Nat.mod_add_mod]
    congr 1
    ring

/-- Claim C8 (amended): for every well-formed minutes-per-mile pace text
"M:S" (both parts parse as u16) whose seconds-per-mile value M*60+S lies
in [9, 65535], parse_pace returns floor((3600/(M*60+S)) * 1.60934 * 100),
the speed in hundredths of km/h; the mph, kph and min/km variants all
return 0. As originally stated the claim also covered 0 < M*60+S ≤ 8,
where the converted value exceeds the u16 range and the cast saturates to
65535 instead of the floor: see the counterexample. -/
theorem claim_C8 (mcs scs : List Char) (M S : ℕ)
    (hm : parseU16 mcs = some M) (hs : parseU16 scs = some S)
    (h9 : 9 ≤ M * 60 + S) (hle : M * 60 + S ≤ 65535) :
    parse_pace (.minPerMi (mcs ++ ':' :: scs)) =
      some ((⌊3600 / ((M * 60 + S : ℕ) : ℚ) * 1.60934 * 100⌋).toNat) ∧
    (∀ v, parse_pace (.mph v) = some 0) ∧
    (∀ v, parse_pace (.kph v) = some 0) ∧
    (∀ v, parse_pace (.minPerKm v) = some 0) := by
  refine ⟨?_, fun v => rfl, fun v => rfl, fun v => rfl⟩
  have hsplit := splitOnColon_append mcs scs
    (parseU16_no_colon mcs M hm) (parseU16_no_colon scs S hs)
  have g0 : (splitOnColon (mcs ++ ':' :: scs)).getD 0 ['0'] = mcs := by
    rw [hsplit]
    rfl
  have g1 : (splitOnColon (mcs ++ ':' :: scs)).getD 1 ['0'] = scs := by
    rw [hsplit]
    rfl
  simp only [parse_pace, g0, g1, hm, hs]
  rw [Nat.mod_eq_of_lt (by omega), paceFromSecondsPerMile_eq_div _ h9,
    floorFormula _ (by omega)]

/-- Claim C8 witness: min/mi "8:00" (480 s per mile). -/
theorem claim_C8_witness :
    parse_pace (.minPerMi (['8'] ++ ':' :: ['0', '0'])) =
      some ((⌊3600 / ((8 * 60 + 0 : ℕ) : ℚ) * 1.60934 * 100⌋).toNat) :=
  (claim_C8 ['8'] ['0', '0'] 8 0 (by decide) (by decide) (by norm_num)
    (by norm_num)).1

/-- Claim C8 counterexample: min/mi "0:8" is a well-formed pace text with
M*60+S = 8 > 0, yet parse_pace returns the saturated 65535, not
floor((3600/8) * 1.60934 * 100) = 72420. -/
theorem claim_C8_counterexample :
    parse_pace (.minPerMi ['0', ':', '8']) = some 65535 ∧
    (⌊3600 / ((0 * 60 + 8 : ℕ) : ℚ) * 1.60934 * 100⌋).toNat = 72420 ∧
    (65535 : ℕ) ≠ 72420 := by
  refine ⟨?_, ?_, by norm_num⟩
  · have h0 : (splitOnColon ['0', ':', '8']).getD 0 ['0'] = ['0'] := by decide
    have h1 : (splitOnColon ['0', ':', '8']).getD 1 ['0'] = ['8'] := by decide
    have hm : parseU16 ['0'] = some 0 := by decide
    have hs : parseU16 ['8'] = some 8 := by decide
    simp only [parse_pace, h0, h1, hm, hs]
    rw [show (0 * 60 + 8) % 65536 = 8 from by norm_num,
      paceFromSecondsPerMile_sat 8 (by norm_num) (by norm_num)]
  · rw [show (0 * 60 + 8 : ℕ) = 8 from by norm_num,
      floorFormula 8 (by norm_num)]

/-- Claim C4 (amended): for every Run leaf whose resolved pace (produced
by the Pace Converter) times its resolved duration (produced by the
Duration Parser) is below 2^24, the compiled step's distance equals
floor(pace * duration / 1000). As originally stated the claim also
covered larger products, where f32 rounding and the saturating u16 cast
give a different value: see the counterexample. -/
theorem claim_C4 (name dur : List Char) (pr : PaceRaw) (angle : ℤ)
    (p d : ℕ) (steps : List WorkoutStep)
    (hok : parse_workout_step (.run name dur pr angle) = some steps)
    (hp : parse_pace pr = some p) (hd : parse_duration dur = some d)
    (hsmall : p * d < 2 ^ 24) :
    steps = [⟨name, d, p * d / 1000, p, angle⟩] := by
  simp only [parse_workout_step, hp, hd] at hok
  rw [runDistance_floor p d hsmall] at hok
  exact (Option.some.inj hok).symm

/-- Claim C4 witness: Run with duration "1:00" and pace min/mi "8:00". -/
theorem claim_C4_witness :
    [(⟨['w'], 60, runDistance 1207 60, 1207, 0⟩ : WorkoutStep)] =
      [⟨['w'], 60, 1207 * 60 / 1000, 1207, 0⟩] :=
  claim_C4 ['w'] ['1', ':', '0', '0'] (.minPerMi ['8', ':', '0', '0']) 0
    1207 60 _
    (by
      simp only [parse_workout_step, pace800,
        show parse_duration ['1', ':', '0', '0'] = some 60 from by decide])
    pace800 (by decide) (by norm_num)

/-- Claim C4 counterexample: the Run leaf with duration "1092:15"
(65535 s) and pace min/mi "8:00" (1207 hundredths of km/h) compiles to
distance 65535, while floor(1207 * 65535 / 1000) = 79100. -/
theorem claim_C4_counterexample :
    parse_workout_step (.run ['x'] ['1', '0', '9', '2', ':', '1', '5']
        (.minPerMi ['8', ':', '0', '0']) 0) =
      some [⟨['x'], 65535, 65535, 1207, 0⟩] ∧
    (1207 * 65535 / 1000 : ℕ) = 79100 ∧ (65535 : ℕ) ≠ 79100 := by
  refine ⟨?_, by norm_num, by norm_num⟩
  have hd : parse_duration ['1', '0', '9', '2', ':', '1', '5'] = some 65535 := by
    decide
  simp only [parse_workout_step, pace800, hd, runDistance_1207_65535]

/-- Claim C3 (amended): the compiled plan's aggregate duration and
distance equal the sums, over the fully expanded flat step sequence, of
each step's already-truncated per-leaf duration and distance, reduced
modulo 2^16 (the u16 accumulators wrap, so the aggregates equal the plain
sums exactly when those fit in 16 bits; see the counterexample); the
Repeat{times:3, children:[Run{duration "1:00", pace min/mi "8:00",
angle 0}]} workout compiles to 3 structurally identical steps with
aggregate duration 180 and aggregate distance 216 = 3 * 72, three times
the single step's truncated distance (not floor(3 * 72.42) = 217). -/
theorem claim_C3 :
    (∀ w plan, parse_workout w = some plan →
      plan.duration = ((plan.steps.map fun st => st.duration).sum) % 65536 ∧
      plan.distance = ((plan.steps.map fun st => st.distance).sum) % 65536) ∧
    parse_workout ⟨['r'], ['d'], [.«repeat» 3
        [.run ['w'] ['1', ':', '0', '0'] (.minPerMi ['8', ':', '0', '0']) 0]]⟩ =
      some ⟨180, 216, [⟨['w'], 60, 72, 1207, 0⟩, ⟨['w'], 60, 72, 1207, 0⟩,
        ⟨['w'], 60, 72, 1207, 0⟩], ['r'], ['d']⟩ ∧
    (216 : ℕ) = 3 * 72 := by
  refine ⟨?_, ?_, by norm_num⟩
  · intro w plan h
    rcases hsteps : parse_workout_steps w.steps with - | steps
    · rw [parse_workout, hsteps] at h
      exact Option.noConfusion h
    · rw [parse_workout, hsteps] at h
      have hp := Option.some.inj h
      subst hp
      constructor
      · simpa using foldl_wrap_sum (fun st => st.duration) steps 0 (by norm_num)
      · simpa using foldl_wrap_sum (fun st => st.distance) steps 0 (by norm_num)
  · have hd1 : parse_duration ['1', ':', '0', '0'] = some 60 := by decide
    have hr : runDistance 1207 60 = 72 := by
      rw [runDistance_floor 1207 60 (by norm_num)]
    have hsteps : parse_workout_steps [WorkoutStepRaw.«repeat» 3
        [.run ['w'] ['1', ':', '0', '0'] (.minPerMi ['8', ':', '0', '0']) 0]] =
        some [⟨['w'], 60, 72, 1207, 0⟩, ⟨['w'], 60, 72, 1207, 0⟩,
          ⟨['w'], 60, 72, 1207, 0⟩] := by
      simp only [parse_workout_steps, parse_workout_step, pace800, hd1, hr]
      rfl
    rw [parse_workout, hsteps]
    rfl

/-- Claim C3 witness: the concrete universal-part instance at the
three-step plan produced by the Repeat workout. -/
theorem claim_C3_witness :
    (⟨180, 216, [⟨['w'], 60, 72, 1207, 0⟩, ⟨['w'], 60, 72, 1207, 0⟩,
        ⟨['w'], 60, 72, 1207, 0⟩], ['r'], ['d']⟩ : Workout).duration =
      ((([⟨['w'], 60, 72, 1207, 0⟩, ⟨['w'], 60, 72, 1207, 0⟩,
        ⟨['w'], 60, 72, 1207, 0⟩] : List WorkoutStep).map
          fun st => st.duration).sum) % 65536 ∧
    (⟨180, 216, [⟨['w'], 60, 72, 1207, 0⟩, ⟨['w'], 60, 72, 1207, 0⟩,
        ⟨['w'], 60, 72, 1207, 0⟩], ['r'], ['d']⟩ : Workout).distance =
      ((([⟨['w'], 60, 72, 1207, 0⟩, ⟨['w'], 60, 72, 1207, 0⟩,
        ⟨['w'], 60, 72, 1207, 0⟩] : List WorkoutStep).map
          fun st => st.distance).sum) % 65536 :=
  claim_C3.1 ⟨['r'], ['d'], [.«repeat» 3
      [.run ['w'] ['1', ':', '0', '0'] (.minPerMi ['8', ':', '0', '0']) 0]]⟩
    _ claim_C3.2.1

/-- Claim C3 counterexample: two copies of a 65535-second run sum to
131070 seconds, but the u16 aggregate wraps to 65534, so the aggregate
does not equal the (unreduced) sum of the per-leaf durations. -/
theorem claim_C3_counterexample :
    parse_workout ⟨['r'], ['d'], [.«repeat» 2 [.run ['w']
        ['1', '0', '9', '2', ':', '1', '5'] (.kph ['3']) 0]]⟩ =
      some ⟨65534, 0, [⟨['w'], 65535, 0, 0, 0⟩, ⟨['w'], 65535, 0, 0, 0⟩],
        ['r'], ['d']⟩ ∧
    (([⟨['w'], 65535, 0, 0, 0⟩, ⟨['w'], 65535, 0, 0, 0⟩] :
        List WorkoutStep).map fun st => st.duration).sum = 131070 ∧
    (65534 : ℕ) ≠ 131070 := by
  refine ⟨?_, by norm_num, by norm_num⟩
  have hd2 : parse_duration ['1', '0', '9', '2', ':', '1', '5'] = some 65535 := by
    decide
  have hr0 : runDistance 0 65535 = 0 := by
    rw [runDistance_floor 0 65535 (by norm_num)]
  have hsteps : parse_workout_steps [WorkoutStepRaw.«repeat» 2 [.run ['w']
      ['1', '0', '9', '2', ':', '1', '5'] (.kph ['3']) 0]] =
      some [⟨['w'], 65535, 0, 0, 0⟩, ⟨['w'], 65535, 0, 0, 0⟩] := by
    simp only [parse_workout_steps, parse_workout_step, parse_pace, hd2, hr0]
    rfl
  rw [parse_workout, hsteps]
  rfl

/-- Claim C9 witness: concrete instantiation on a short buffer and a
fully flagged-off frame. -/
theorem claim_C9_witness :
    (decode_treadmill_data [0, 0, 3, 0] ≠ .error .indexOutOfBounds ∧
      ((∃ fr, decode_treadmill_data [0, 0, 3, 0] = .ok fr) ∨
        decode_treadmill_data [0, 0, 3, 0] = .error .notEnoughData)) ∧
    (decode_treadmill_data [255] ≠ .error .indexOutOfBounds ∧
      ((∃ fr, decode_treadmill_data [255] = .ok fr) ∨
        decode_treadmill_data [255] = .error .notEnoughData)) :=
  ⟨claim_C9 [0, 0, 3, 0], claim_C9 [255]⟩

end Treadmill
